import Mathlib

set_option maxRecDepth 4000

/-!
Verification development for the address-space-graphics (ASG) core of the
aemu repository: the host-side shared-memory pool (`Globals`), the
per-context protocol handler (`AddressSpaceGraphicsContext`), and their
snapshot (save/load) wire format, shallowly embedded from
`host-common/address_space_graphics.cpp`.  External leaf dependencies
whose sources are not part of this tree (the byte stream, the
SubAllocator, the shared ring-header types) are modelled from the spec at
their interface boundary, as marked on each such definition.
-/

namespace Asg

/-- Fatal outcomes: the source reports every detected invariant violation
through crashhandler_die / GFXSTREAM_ABORT, which never return.  Each
constructor names one distinct abort site.  `streamEof` additionally marks
reading past the end of a snapshot stream, which cannot happen on the
streams produced by save. -/
inductive Fatal where
  | sizeExceedsBlockSize
  | allocFailed
  | ringAllocFailed
  | bufferAllocFailed
  | blockIndexOutOfRange
  | freeFailed
  | subAllocGone
  | dedicatedWithoutVirtio
  | dedicatedWithoutExternalAddr
  | virtioWithoutDedicated
  | dedicatedHandleMissing
  | externalAddrTooSmall
  | loadVirtioNoDedicated
  | loadNoResources
  | loadResourceMissing
  | consumerLoadFailed
  | streamEof
  deriving DecidableEq

/-- Modelled from the spec: snapshot streams consist of multi-byte
integers "written big-endian via fixed-width put/get primitives (32-bit
and 64-bit)" (spec §6); the android::base::Stream class itself is not
under src/.  A stream is a byte list; `beBytes k v` is the k-byte
big-endian encoding of v, most significant byte first. -/
def beBytes : Nat → Nat → List Nat
  | 0, _ => []
  | k + 1, v => v / 256 ^ k :: beBytes k (v % 256 ^ k)

/-- Modelled from the spec: big-endian reader for k bytes, returning the
decoded value and the remaining stream. -/
def getBeN : Nat → List Nat → Except Fatal (Nat × List Nat)
  | 0, l => .ok (0, l)
  | _ + 1, [] => .error .streamEof
  | k + 1, b :: l =>
    match getBeN k l with
    | .ok (v, r) => .ok (b * 256 ^ k + v, r)
    | .error e => .error e

/-- Fixed-width big-endian writer: values wider than k bytes are
truncated, as the C++ put primitives take fixed-width integers. -/
def putBeN (k v : Nat) : List Nat := beBytes k (v % 256 ^ k)

def putBe32 (v : Nat) : List Nat := putBeN 4 v

def putBe64 (v : Nat) : List Nat := putBeN 8 v

def getBe32 : List Nat → Except Fatal (Nat × List Nat) := getBeN 4

def getBe64 : List Nat → Except Fatal (Nat × List Nat) := getBeN 8

/-- Raw byte-range read, mirroring Stream::read of a known byte count. -/
def getBytes (n : Nat) (l : List Nat) : Except Fatal (List Nat × List Nat) :=
  if n ≤ l.length then .ok (l.take n, l.drop n) else .error .streamEof

/-- Modelled from the spec: "strings are length-prefixed" (spec §6). -/
def putString (s : List Nat) : List Nat := putBe32 s.length ++ s

def getString (l : List Nat) : Except Fatal (List Nat × List Nat) :=
  match getBe32 l with
  | .ok (n, r) => getBytes n r
  | .error e => .error e

end Asg

namespace Asg

/-- Modelled from the spec: the Sub-Allocator leaf dependency
(android::base::SubAllocator is not under src/).  Per spec §2/§3 it
"carves fixed-size pages out of a contiguous byte buffer; tracks
free/used pages; reports emptiness", with the narrow contract
allocate(size)→pointer-or-null (page-aligned, size rounded up to a page
multiple, first-fit per spec §4.1), free(pointer)→bool, offset(pointer),
empty()→bool, plus binary save/load of its state.  Live allocations are
kept as (byte offset, rounded size) pairs. -/
structure SubAlloc where
  pageSize : Nat
  totalSize : Nat
  allocs : List (Nat × Nat)
  deriving DecidableEq

def roundUpPage (sz pg : Nat) : Nat :=
  if pg = 0 then sz else (sz + pg - 1) / pg * pg

def rangesOverlap (o1 s1 o2 s2 : Nat) : Bool :=
  decide (o1 < o2 + s2) && decide (o2 < o1 + s1)

def SubAlloc.fitsAt (sa : SubAlloc) (o sz : Nat) : Bool :=
  decide (o + sz ≤ sa.totalSize) &&
    sa.allocs.all (fun p => !(rangesOverlap o sz p.1 p.2))

/-- First-fit scan over page-aligned candidate offsets; fuel bounds the
number of candidates tried. -/
def SubAlloc.findFit (sa : SubAlloc) (sz : Nat) : Nat → Nat → Option Nat
  | 0, _ => none
  | fuel + 1, o =>
    if sa.fitsAt o sz then some o
    else if o + sz > sa.totalSize then none
    else sa.findFit sz fuel (o + sa.pageSize)

def SubAlloc.alloc (sa : SubAlloc) (size : Nat) : Option (Nat × SubAlloc) :=
  let sz := roundUpPage size sa.pageSize
  match sa.findFit sz (sa.totalSize + 1) 0 with
  | none => none
  | some o => some (o, { sa with allocs := sa.allocs ++ [(o, sz)] })

def SubAlloc.free (sa : SubAlloc) (o : Nat) : Option SubAlloc :=
  if sa.allocs.any (fun p => p.1 == o) then
    some { sa with allocs := sa.allocs.filter (fun p => !(p.1 == o)) }
  else
    none

def SubAlloc.empty (sa : SubAlloc) : Bool := sa.allocs.isEmpty

/-- Modelled from the spec: the Sub-Allocator's "binary save/load of its
free-list state" (spec §2); a concrete length-prefixed encoding of the
live-allocation list using the big-endian 64-bit primitives. -/
def savePairs : List (Nat × Nat) → List Nat
  | [] => []
  | p :: ps => putBe64 p.1 ++ putBe64 p.2 ++ savePairs ps

def loadPairs : Nat → List Nat → Except Fatal (List (Nat × Nat) × List Nat)
  | 0, l => .ok ([], l)
  | n + 1, l =>
    match getBe64 l with
    | .error e => .error e
    | .ok (a, l1) =>
      match getBe64 l1 with
      | .error e => .error e
      | .ok (b, l2) =>
        match loadPairs n l2 with
        | .error e => .error e
        | .ok (ps, l3) => .ok ((a, b) :: ps, l3)

def subAllocSave (sa : SubAlloc) : List Nat :=
  putBe64 sa.pageSize ++ putBe64 sa.totalSize ++
    putBe64 sa.allocs.length ++ savePairs sa.allocs

def subAllocLoad (l : List Nat) : Except Fatal (SubAlloc × List Nat) :=
  match getBe64 l with
  | .error e => .error e
  | .ok (pg, l1) =>
    match getBe64 l1 with
    | .error e => .error e
    | .ok (total, l2) =>
      match getBe64 l2 with
      | .error e => .error e
      | .ok (n, l3) =>
        match loadPairs n l3 with
        | .error e => .error e
        | .ok (ps, l4) => .ok ({ pageSize := pg, totalSize := total, allocs := ps }, l4)

/-- Bounds under which the modelled Sub-Allocator state survives its
64-bit wire encoding unchanged. -/
def pairWFb (p : Nat × Nat) : Bool :=
  decide (p.1 < 256 ^ 8) && decide (p.2 < 256 ^ 8)

def SubAlloc.wfb (sa : SubAlloc) : Bool :=
  decide (sa.pageSize < 256 ^ 8) && decide (sa.totalSize < 256 ^ 8) &&
    decide (sa.allocs.length < 256 ^ 8) && sa.allocs.all pairWFb

end Asg

namespace Asg

end Asg

namespace Asg

/-- Modelled from the spec: the architectural block size (the header
address_space_graphics_types.h defining ADDRESS_SPACE_GRAPHICS_BLOCK_SIZE
is not under src/); spec §3 calls it the "fixed-size (architectural
constant BLOCK_SIZE)" of a Block.  The value is the 16 MiB used by the
device. -/
def ADDRESS_SPACE_GRAPHICS_BLOCK_SIZE : Nat := 16 * 1048576

/-- Modelled from the spec: the sub-allocation page size constant
(header not under src/); spec §3: "every live allocation is page-aligned". -/
def ADDRESS_SPACE_GRAPHICS_PAGE_SIZE : Nat := 4096

/-- Modelled from the spec: sizeof(struct asg_ring_storage), the size of
the shared ring-header region (spec glossary: "Ring: small shared-memory
control/header region per context"; the struct's header is not under
src/).  The exact value is immaterial to the claims; one page is used. -/
def asgRingStorageSize : Nat := 4096

/-- Block, from address_space_graphics.cpp.  The C++ `char* buffer` is
modelled as a base address (`buffer`, 0 standing for a not-yet-filled
null pointer) together with the bytes residing there (`contents`); the
owned SubAllocator pointer becomes an Option that `destroyBlockLocked`
clears. -/
structure Block where
  buffer : Nat := 0
  bufferSize : Nat := 0
  subAlloc : Option SubAlloc := none
  offsetIntoPhys : Nat := 0
  isEmpty : Bool := true
  dedicatedContextHandle : Option Nat := none
  usesVirtioGpuHostmem : Bool := false
  hostmemId : Nat := 0
  external : Bool := false
  contents : List Nat := []
  deriving DecidableEq

/-- A default-constructed Block (C++ `Block newBlock;`). -/
def Block.init : Block := {}

/-- Allocation, from address_space_graphics.h (descriptor fields as
written/read by saveAllocation/loadAllocation and filled by
newAllocation).  `buffer` is `none` for a null pointer, otherwise the
address block-base + intra-block offset. -/
structure Alloc where
  buffer : Option Nat := none
  blockIndex : Nat := 0
  offsetIntoPhys : Nat := 0
  size : Nat := 0
  isView : Bool := false
  dedicatedContextHandle : Option Nat := none
  hostmemId : Nat := 0
  deriving DecidableEq

def Alloc.init : Alloc := {}

/-- AllocationCreateInfo, from address_space_graphics.cpp.  The model
adds `externalContents`, the bytes residing at `externalAddr`, since the
shallow embedding carries memory contents explicitly. -/
structure AllocationCreateInfo where
  virtioGpu : Bool := false
  hostmemRegisterFixed : Bool := false
  fromLoad : Bool := false
  size : Nat := 0
  hostmemId : Nat := 0
  externalAddr : Option Nat := none
  externalContents : List Nat := []
  dedicatedContextHandle : Option Nat := none
  deriving DecidableEq

/-- Globals::fillBlockLocked.  The physical-window collaborator
(allocSharedHostRegionLocked) is modelled by `nextPhys`: a fresh
non-load internal fill takes `nextPhys` as its physical offset and
advances it by one block; the fromLoad path keeps the offset already in
the block and tolerates the fixed re-allocation (as the source does).
Freshly aligned-buf-alloc'ed memory is modelled as zero bytes. -/
def fillBlockLocked (b : Block) (create : AllocationCreateInfo)
    (nextPhys : Nat) : Except Fatal (Block × Nat) :=
  match create.dedicatedContextHandle with
  | some _ =>
    if !create.virtioGpu then .error .dedicatedWithoutVirtio
    else
      match create.externalAddr with
      | none => .error .dedicatedWithoutExternalAddr
      | some addr =>
        .ok ({ buffer := addr
               bufferSize := create.size
               subAlloc := some { pageSize := ADDRESS_SPACE_GRAPHICS_PAGE_SIZE
                                  totalSize := create.size
                                  allocs := [] }
               offsetIntoPhys := 0
               isEmpty := false
               usesVirtioGpuHostmem := create.virtioGpu
               hostmemId := create.hostmemId
               dedicatedContextHandle := create.dedicatedContextHandle
               external := true
               contents := create.externalContents }, nextPhys)
  | none =>
    if create.virtioGpu then .error .virtioWithoutDedicated
    else
      let offs := if create.fromLoad then b.offsetIntoPhys else nextPhys
      let nextPhys' :=
        if create.fromLoad then nextPhys
        else nextPhys + ADDRESS_SPACE_GRAPHICS_BLOCK_SIZE
      .ok ({ b with
               buffer := 0
               bufferSize := ADDRESS_SPACE_GRAPHICS_BLOCK_SIZE
               subAlloc := some { pageSize := ADDRESS_SPACE_GRAPHICS_PAGE_SIZE
                                  totalSize := ADDRESS_SPACE_GRAPHICS_BLOCK_SIZE
                                  allocs := [] }
               offsetIntoPhys := offs
               isEmpty := false
               contents := List.replicate ADDRESS_SPACE_GRAPHICS_BLOCK_SIZE 0 },
            nextPhys')

/-- Globals::destroyBlockLocked: unmapping/unregistering happens on
external collaborators; in the state model the SubAllocator is deleted
and the block marked empty (the slot stays in its pool vector). -/
def destroyBlockLocked (b : Block) : Block :=
  { b with subAlloc := none, isEmpty := true }

/-- Globals::shouldDestryBlockLocked (source spelling kept). -/
def shouldDestryBlockLocked (b : Block) : Bool :=
  match b.subAlloc with
  | some sa => sa.empty
  | none => true

/-- Globals::deleteAllocation. -/
def deleteAllocation (a : Alloc) (blocks : List Block) :
    Except Fatal (List Block) :=
  match a.buffer with
  | none => .ok blocks
  | some p =>
    match blocks[a.blockIndex]? with
    | none => .error .blockIndexOutOfRange
    | some blk =>
      if blk.external then .ok (blocks.set a.blockIndex (destroyBlockLocked blk))
      else
        match blk.subAlloc with
        | none => .error .subAllocGone
        | some sa =>
          match sa.free (p - blk.buffer) with
          | none => .error .freeFailed
          | some sa2 =>
            let blk2 := { blk with subAlloc := some sa2 }
            if shouldDestryBlockLocked blk2 then
              .ok (blocks.set a.blockIndex (destroyBlockLocked blk2))
            else
              .ok (blocks.set a.blockIndex blk2)

/-- The first-fit scan inside Globals::newAllocation: walks the pool in
insertion order, refilling empty slots with the current create info,
skipping dedicated-handle mismatches, and returning the first successful
sub-allocation together with the (possibly refilled) pool. -/
def scanBlocks (create : AllocationCreateInfo) (idx : Nat)
    (blocks : List Block) (nextPhys : Nat) :
    Except Fatal (Option Alloc × List Block × Nat) :=
  match blocks with
  | [] => .ok (none, [], nextPhys)
  | b :: rest =>
    match (if b.isEmpty then fillBlockLocked b create nextPhys
           else .ok (b, nextPhys)) with
    | .error e => .error e
    | .ok (b1, np1) =>
      if b1.dedicatedContextHandle ≠ create.dedicatedContextHandle then
        match scanBlocks create (idx + 1) rest np1 with
        | .error e => .error e
        | .ok (r, rest2, np2) => .ok (r, b1 :: rest2, np2)
      else
        match b1.subAlloc with
        | none => .error .subAllocGone
        | some sa =>
          match sa.alloc create.size with
          | some (off, sa2) =>
            let b2 := { b1 with subAlloc := some sa2 }
            .ok (some { buffer := some (b2.buffer + off)
                        blockIndex := idx
                        offsetIntoPhys := b2.offsetIntoPhys + off
                        size := create.size
                        isView := false
                        dedicatedContextHandle := create.dedicatedContextHandle
                        hostmemId := create.hostmemId },
                 b2 :: rest, np1)
          | none =>
            match scanBlocks create (idx + 1) rest np1 with
            | .error e => .error e
            | .ok (r, rest2, np2) => .ok (r, b1 :: rest2, np2)

/-- Globals::newAllocation. -/
def newAllocation (create : AllocationCreateInfo) (blocks : List Block)
    (nextPhys : Nat) : Except Fatal (Alloc × List Block × Nat) :=
  if create.size > ADDRESS_SPACE_GRAPHICS_BLOCK_SIZE then
    .error .sizeExceedsBlockSize
  else
    match scanBlocks create 0 blocks nextPhys with
    | .error e => .error e
    | .ok (some a, blocks1, np1) => .ok (a, blocks1, np1)
    | .ok (none, blocks1, np1) =>
      match fillBlockLocked Block.init create np1 with
      | .error e => .error e
      | .ok (nb, np2) =>
        match nb.subAlloc with
        | none => .error .subAllocGone
        | some sa =>
          match sa.alloc create.size with
          | none => .error .allocFailed
          | some (off, sa2) =>
            .ok ({ buffer := some (nb.buffer + off)
                   blockIndex := blocks1.length
                   offsetIntoPhys := nb.offsetIntoPhys + off
                   size := create.size
                   isView := false
                   dedicatedContextHandle := create.dedicatedContextHandle
                   hostmemId := create.hostmemId },
                 blocks1 ++ [{ nb with subAlloc := some sa2 }], np2)

/-- The Globals singleton's state: the three block pools, the
per-context buffer size (hw_gltransport_asg_writeBufferSize) and flush
step (hw_gltransport_asg_writeStepSize) read from the hardware config
collaborator, and the model of the physical-window allocator's next free
offset. -/
structure Globals where
  perContextBufferSize : Nat := 0
  writeStepSize : Nat := 0
  ringBlocks : List Block := []
  bufferBlocks : List Block := []
  combinedBlocks : List Block := []
  nextPhys : Nat := 0
  deriving DecidableEq

/-- Globals::clear: every block is destroyed and the three pool vectors
are emptied. -/
def Globals.clear (g : Globals) : Globals :=
  { g with ringBlocks := [], bufferBlocks := [], combinedBlocks := [] }

/-- Globals::allocRingStorage. -/
def allocRingStorage (g : Globals) : Except Fatal (Alloc × Globals) :=
  match newAllocation { size := asgRingStorageSize } g.ringBlocks g.nextPhys with
  | .error e => .error e
  | .ok (a, bs, np) => .ok (a, { g with ringBlocks := bs, nextPhys := np })

/-- Globals::freeRingStorage: views are never independently freed. -/
def freeRingStorage (g : Globals) (a : Alloc) : Except Fatal Globals :=
  if a.isView then .ok g
  else
    match deleteAllocation a g.ringBlocks with
    | .error e => .error e
    | .ok bs => .ok { g with ringBlocks := bs }

/-- Globals::allocBuffer. -/
def allocBuffer (g : Globals) : Except Fatal (Alloc × Globals) :=
  match newAllocation { size := g.perContextBufferSize } g.bufferBlocks
      g.nextPhys with
  | .error e => .error e
  | .ok (a, bs, np) => .ok (a, { g with bufferBlocks := bs, nextPhys := np })

/-- Globals::freeBuffer: views are never independently freed. -/
def freeBuffer (g : Globals) (a : Alloc) : Except Fatal Globals :=
  if a.isView then .ok g
  else
    match deleteAllocation a g.bufferBlocks with
    | .error e => .error e
    | .ok bs => .ok { g with bufferBlocks := bs }

/-- Globals::freeRingAndBuffer (no view guard in the source). -/
def freeRingAndBuffer (g : Globals) (a : Alloc) : Except Fatal Globals :=
  match deleteAllocation a g.combinedBlocks with
  | .error e => .error e
  | .ok bs => .ok { g with combinedBlocks := bs }

/-- Globals::allocRingViewIntoCombined. -/
def allocRingViewIntoCombined (a : Alloc) : Alloc :=
  { a with size := asgRingStorageSize, isView := true }

/-- Globals::allocBufferViewIntoCombined; the view's pointer is the
combined buffer advanced past the ring storage. -/
def allocBufferViewIntoCombined (perContextBufferSize : Nat) (a : Alloc) :
    Alloc :=
  { a with buffer := a.buffer.map (· + asgRingStorageSize)
           size := perContextBufferSize
           isView := true }

/-- AddressSpaceCreateInfo, from address_space_device.h (header not under
src/); modelled from the spec and its uses in the constructor and in
allocRingAndBufferStorageDedicated: snapshot flag, device type (virtio
graphics or not), render-thread request, virtio identity, dedicated
handle (0 meaning absent, as the source tests `!asgCreate.handle`), and
optional external backing memory with its size and (model-carried)
contents. -/
structure AddressSpaceCreateInfo where
  fromSnapshot : Bool := false
  isVirtio : Bool := false
  createRenderThread : Bool := false
  virtioGpuContextId : Nat := 0
  virtioGpuCapsetId : Nat := 0
  contextName : Option (List Nat) := none
  handle : Nat := 0
  externalAddr : Option Nat := none
  externalAddrSize : Nat := 0
  externalContents : List Nat := []
  deriving DecidableEq

/-- Globals::allocRingAndBufferStorageDedicated. -/
def allocRingAndBufferStorageDedicated (g : Globals)
    (asgCreate : AddressSpaceCreateInfo) : Except Fatal (Alloc × Globals) :=
  if asgCreate.handle = 0 then .error .dedicatedHandleMissing
  else
    let size0 := asgRingStorageSize + g.perContextBufferSize
    let create0 : AllocationCreateInfo :=
      { size := size0
        dedicatedContextHandle := some asgCreate.handle
        virtioGpu := true }
    match
      (match asgCreate.externalAddr with
       | none => Except.ok create0
       | some addr =>
         if asgCreate.externalAddrSize < size0 then
           Except.error Fatal.externalAddrTooSmall
         else
           Except.ok { create0 with
                         externalAddr := some addr
                         externalContents := asgCreate.externalContents
                         size := asgCreate.externalAddrSize }) with
    | .error e => .error e
    | .ok create =>
      match newAllocation create g.combinedBlocks g.nextPhys with
      | .error e => .error e
      | .ok (a, bs, np) =>
        .ok (a, { g with combinedBlocks := bs, nextPhys := np })

/-- The shared ring-header configuration (struct asg_ring_config; header
not under src/): modelled from the spec's fixed field list, "buffer_size,
flush_interval, host_consumed_pos, guest_write_pos, transfer_mode,
transfer_size, in_error" (spec §6), each a 32-bit integer. -/
structure RingConfig where
  buffer_size : Nat := 0
  flush_interval : Nat := 0
  host_consumed_pos : Nat := 0
  guest_write_pos : Nat := 0
  transfer_mode : Nat := 0
  transfer_size : Nat := 0
  in_error : Nat := 0
  deriving DecidableEq

/-- Modelled from the spec: the host-state enum embedded in the shared
ring header, with the states CAN_CONSUME, NEED_NOTIFY and EXIT of the
spec §4.2 state machine (the defining header is not under src/). -/
inductive HostState where
  | CanConsume
  | NeedNotify
  | Exit
  deriving DecidableEq

/-- Modelled from the spec: the consumer-thread message channel's command
values (spec §4.2/§5: Wakeup, Exit, Sleep, PausePreSnapshot,
ResumePostSnapshot; the defining header is not under src/). -/
inductive ConsumerCommand where
  | Wakeup
  | Sleep
  | Exit
  | PausePreSnapshot
  | ResumePostSnapshot
  deriving DecidableEq

/-- VirtioGpuInfo, from address_space_graphics.h: virtio identity of a
context (context id, capset id, optional name). -/
structure VirtioGpuInfo where
  contextId : Nat := 0
  capsetId : Nat := 0
  name : Option (List Nat) := none
  deriving DecidableEq

/-- AddressSpaceDevicePingInfo as used by perform: the guest-visible
metadata (command in, payload out) and size fields, both 64-bit. -/
structure PingInfo where
  metadata : Nat := 0
  size : Nat := 0
  deriving DecidableEq

/-- AddressSpaceGraphicsContext state.  The consumer handle created
through the external Consumer Interface is modelled as a Nat; the
interface's create is modelled as yielding successive fresh handles,
with `consumersCreated` counting the create invocations.  The live ring
header (mHostContext.ring_config) and host-state field reside in shared
ring memory; the model carries their values as plain fields. -/
structure Ctx where
  virtioGpuInfo : Option VirtioGpuInfo := none
  ringAllocation : Alloc := {}
  bufferAllocation : Alloc := {}
  combinedAllocation : Alloc := {}
  version : Nat := 1
  exiting : Nat := 0
  unavailableReadCount : Nat := 0
  ringConfig : RingConfig := {}
  hostState : HostState := .CanConsume
  savedConfig : RingConfig := {}
  consumer : Option Nat := none
  consumersCreated : Nat := 0
  deriving DecidableEq

/-- A context as built by the fromSnapshot constructor path (which
returns immediately, leaving initialization to load). -/
def Ctx.init : Ctx := {}

/-- The AddressSpaceGraphicsContext constructor (non-snapshot paths).
For virtio contexts a combined dedicated allocation is split into ring
and buffer views; otherwise independent ring and buffer storage is
allocated.  A null ring or buffer pointer is fatal. -/
def mkContextAllocs (g : Globals) (create : AddressSpaceCreateInfo) :
    Except Fatal (Option VirtioGpuInfo × Alloc × Alloc × Alloc × Globals) :=
  if create.isVirtio then
    match allocRingAndBufferStorageDedicated g create with
    | .error e => .error e
    | .ok (comb, g1) =>
      .ok (some { contextId := create.virtioGpuContextId
                  capsetId := create.virtioGpuCapsetId
                  name := create.contextName },
        allocRingViewIntoCombined comb,
        allocBufferViewIntoCombined g1.perContextBufferSize comb,
        comb, g1)
  else
    match allocRingStorage g with
    | .error e => .error e
    | .ok (ring, g1) =>
      match allocBuffer g1 with
      | .error e => .error e
      | .ok (buf, g2) => .ok (none, ring, buf, Alloc.init, g2)

def mkContext (g : Globals) (create : AddressSpaceCreateInfo) :
    Except Fatal (Ctx × Globals) :=
  if create.fromSnapshot then .ok (Ctx.init, g)
  else
    match mkContextAllocs g create with
    | .error e => .error e
    | .ok (vinfo, ring, buf, comb, g2) =>
      if ring.buffer = none then .error .ringAllocFailed
      else if buf.buffer = none then .error .bufferAllocFailed
      else
        let cfg : RingConfig :=
          { buffer_size := g2.perContextBufferSize
            flush_interval := g2.writeStepSize
            host_consumed_pos := 0
            guest_write_pos := 0
            transfer_mode := 1
            transfer_size := 0
            in_error := 0 }
        .ok ({ virtioGpuInfo := vinfo
               ringAllocation := ring
               bufferAllocation := buf
               combinedAllocation := comb
               version := 1
               exiting := 0
               unavailableReadCount := 0
               ringConfig := cfg
               hostState := .CanConsume
               savedConfig := cfg
               consumer := if create.createRenderThread then some 1 else none
               consumersCreated := if create.createRenderThread then 1 else 0 },
             g2)

/-- The asg_command opcodes dispatched by perform, in the order the spec
lists them (GET_RING, GET_BUFFER, SET_VERSION, NOTIFY_AVAILABLE,
GET_CONFIG); the defining header is not under src/ and is modelled from
the spec §6. -/
inductive AsgCommand where
  | GET_RING
  | GET_BUFFER
  | SET_VERSION
  | NOTIFY_AVAILABLE
  | GET_CONFIG
  deriving DecidableEq

def asgCommandOfNat : Nat → Option AsgCommand
  | 0 => some .GET_RING
  | 1 => some .GET_BUFFER
  | 2 => some .SET_VERSION
  | 3 => some .NOTIFY_AVAILABLE
  | 4 => some .GET_CONFIG
  | _ => none

/-- AddressSpaceGraphicsContext::perform.  A metadata value outside the
opcode enum falls through the C++ switch unchanged.  NOTIFY_AVAILABLE's
trySend of Wakeup is a non-blocking post on the external message channel
(the channel contents are an explicit argument of onUnavailableRead, not
context state).  uint32 narrowing of the guest version is explicit. -/
def perform (c : Ctx) (info : PingInfo) : Ctx × PingInfo :=
  match asgCommandOfNat info.metadata with
  | some .GET_RING =>
    (c, { metadata := c.ringAllocation.offsetIntoPhys
          size := c.ringAllocation.size })
  | some .GET_BUFFER =>
    (c, { metadata := c.bufferAllocation.offsetIntoPhys
          size := c.bufferAllocation.size })
  | some .SET_VERSION =>
    let guestVersion := info.size % 256 ^ 4
    let newVersion := if c.version > guestVersion then guestVersion else c.version
    let created := c.consumersCreated + 1
    let info1 : PingInfo := { info with size := newVersion }
    ({ c with version := newVersion
              consumer := some created
              consumersCreated := created },
     if c.virtioGpuInfo.isSome then
       { info1 with metadata := c.combinedAllocation.hostmemId }
     else info1)
  | some .NOTIFY_AVAILABLE => (c, { info with metadata := 0 })
  | some .GET_CONFIG =>
    ({ c with ringConfig := c.savedConfig }, { info with metadata := 0 })
  | none => (c, info)

/-- Outcome of one onUnavailableRead call: returned without entering the
blocking receive; stuck blocking (message list exhausted inside the
receive); or returned after the receive, with the unconsumed rest of the
message list. -/
inductive ReadOutcome where
  | immediate (ret : Int) (c : Ctx)
  | blocked (c : Ctx)
  | returned (ret : Int) (c : Ctx) (rest : List ConsumerCommand)
  deriving DecidableEq

/-- The `sleep:` receive loop of onUnavailableRead: set the shared
host-state to NEED_NOTIFY, block on the message channel, and dispatch
the received command (Sleep re-arms the same wait).  The channel is
modelled by the list of commands the blocking receive yields in order.
The C++ default branch (crashhandler on an out-of-enum command value)
is unreachable with the closed command type. -/
def sleepLoop (c : Ctx) : List ConsumerCommand → ReadOutcome
  | [] => .blocked { c with hostState := .NeedNotify }
  | cmd :: rest =>
    let c1 := { c with hostState := HostState.NeedNotify }
    match cmd with
    | .Wakeup => .returned 1 { c1 with hostState := .CanConsume } rest
    | .Exit => .returned (-1) { c1 with hostState := .Exit } rest
    | .Sleep => sleepLoop c1 rest
    | .PausePreSnapshot => .returned (-2) c1 rest
    | .ResumePostSnapshot => .returned (-3) c1 rest

/-- AddressSpaceGraphicsContext::onUnavailableRead.  ring_buffer_yield is
an external scheduling hint with no state effect.  The counter is a
uint32. -/
def onUnavailableRead (c : Ctx) (msgs : List ConsumerCommand) : ReadOutcome :=
  let count1 := (c.unavailableReadCount + 1) % 256 ^ 4
  let count2 := if c.exiting ≠ 0 then 8 else count1
  if count2 ≥ 8 then
    sleepLoop { c with unavailableReadCount := 0 } msgs
  else
    .immediate 0 { c with unavailableReadCount := count1 }

/-- One entry of AddressSpaceDeviceLoadResources'
contextExternalMemoryMap: the replacement external memory for a
dedicated context handle; the model carries the bytes residing at the
external address. -/
structure ExtMem where
  address : Nat := 0
  contents : List Nat := []

/-- The optional load-resources map, keyed by dedicated context handle. -/
def LoadResources : Type := Option (Nat → Option ExtMem)

/-- Globals::saveBlockLocked. -/
def saveBlockLocked (b : Block) : List Nat :=
  if b.isEmpty then putBe32 0
  else
    putBe32 1 ++
    putBe64 b.bufferSize ++
    putBe64 b.offsetIntoPhys ++
    (match b.dedicatedContextHandle with
     | some h => putBe32 1 ++ putBe32 h
     | none => putBe32 0) ++
    putBe32 (if b.usesVirtioGpuHostmem then 1 else 0) ++
    putBe64 b.hostmemId ++
    (match b.subAlloc with
     | some sa => subAllocSave sa
     | none => []) ++
    (if b.external then [] else b.contents)

/-- Globals::loadBlockLocked.  The loaded create info carries
fromLoad/hostmemRegisterFixed; virtio blocks require a load-resources
entry for their dedicated handle, whose external memory replaces the
block's backing store. -/
def loadBlockLocked (resources : LoadResources) (b : Block) (l : List Nat) :
    Except Fatal (Block × List Nat) :=
  match getBe32 l with
  | .error e => .error e
  | .ok (filled, l1) =>
    if filled = 0 then .ok ({ b with isEmpty := true }, l1)
    else
      let b := { b with isEmpty := false }
      match getBe64 l1 with
      | .error e => .error e
      | .ok (size, l2) =>
        match getBe64 l2 with
        | .error e => .error e
        | .ok (offs, l3) =>
          match getBe32 l3 with
          | .error e => .error e
          | .ok (hFlag, l4) =>
            match
              (if hFlag = 1 then
                match getBe32 l4 with
                | .error e => .error e
                | .ok (h, l5) => Except.ok (some h, l5)
              else Except.ok ((none : Option Nat), l4)) with
            | .error e => .error e
            | .ok (hOpt, l5) =>
              match getBe32 l5 with
              | .error e => .error e
              | .ok (vg, l6) =>
                let virtio := vg ≠ 0
                match
                  (if virtio then
                    match hOpt with
                    | none => Except.error Fatal.loadVirtioNoDedicated
                    | some h =>
                      match resources with
                      | none => Except.error Fatal.loadNoResources
                      | some m =>
                        match m h with
                        | none => Except.error Fatal.loadResourceMissing
                        | some em => Except.ok (some em)
                  else Except.ok (none : Option ExtMem)) with
                | .error e => .error e
                | .ok extInfo =>
                  match getBe64 l6 with
                  | .error e => .error e
                  | .ok (hostmemId, l7) =>
                    let create : AllocationCreateInfo :=
                      { virtioGpu := virtio
                        hostmemRegisterFixed := true
                        fromLoad := true
                        size := size
                        hostmemId := hostmemId
                        externalAddr := extInfo.map (·.address)
                        externalContents :=
                          (extInfo.map (·.contents)).getD []
                        dedicatedContextHandle := hOpt }
                    match fillBlockLocked { b with offsetIntoPhys := offs }
                        create 0 with
                    | .error e => .error e
                    | .ok (b1, _) =>
                      match subAllocLoad l7 with
                      | .error e => .error e
                      | .ok (sa, l8) =>
                        let b2 := { b1 with subAlloc := some sa }
                        if b2.external then .ok (b2, l8)
                        else
                          match getBytes b2.bufferSize l8 with
                          | .error e => .error e
                          | .ok (bytes, l9) =>
                            .ok ({ b2 with contents := bytes }, l9)

/-- Globals::save over one pool: each block's record in order. -/
def saveBlockList : List Block → List Nat
  | [] => []
  | b :: bs => saveBlockLocked b ++ saveBlockList bs

/-- Globals::load over one pool: the pool vector is resized to the saved
count (default-constructed blocks) and each is loaded in order. -/
def loadBlockList (resources : LoadResources) :
    Nat → List Nat → Except Fatal (List Block × List Nat)
  | 0, l => .ok ([], l)
  | n + 1, l =>
    match loadBlockLocked resources Block.init l with
    | .error e => .error e
    | .ok (b, l1) =>
      match loadBlockList resources n l1 with
      | .error e => .error e
      | .ok (bs, l2) => .ok (b :: bs, l2)

/-- Globals::save: the three pool sizes, then every block record. -/
def globalsSave (g : Globals) : List Nat :=
  putBe64 g.ringBlocks.length ++
  putBe64 g.bufferBlocks.length ++
  putBe64 g.combinedBlocks.length ++
  saveBlockList g.ringBlocks ++
  saveBlockList g.bufferBlocks ++
  saveBlockList g.combinedBlocks

/-- Globals::load: clears all pools first (the collaborator's
globalPreLoad notification has no state effect here), then reconstructs
each pool. -/
def globalsLoad (g : Globals) (resources : LoadResources) (l : List Nat) :
    Except Fatal (Globals × List Nat) :=
  let g0 := Globals.clear g
  match getBe64 l with
  | .error e => .error e
  | .ok (ringCount, l1) =>
    match getBe64 l1 with
    | .error e => .error e
    | .ok (bufferCount, l2) =>
      match getBe64 l2 with
      | .error e => .error e
      | .ok (combinedCount, l3) =>
        match loadBlockList resources ringCount l3 with
        | .error e => .error e
        | .ok (rs, l4) =>
          match loadBlockList resources bufferCount l4 with
          | .error e => .error e
          | .ok (bs, l5) =>
            match loadBlockList resources combinedCount l5 with
            | .error e => .error e
            | .ok (cs, l6) =>
              .ok ({ g0 with ringBlocks := rs
                             bufferBlocks := bs
                             combinedBlocks := cs }, l6)

/-- AddressSpaceGraphicsContext::AllocType. -/
inductive AllocType where
  | AllocTypeRing
  | AllocTypeBuffer
  | AllocTypeCombined
  deriving DecidableEq

/-- Globals::fillAllocFromLoad: refill an Allocation's pointer and
identity fields from its (already reloaded) owning block; out-of-range
block indices leave the Allocation untouched. -/
def fillAllocFromLoad (g : Globals) (t : AllocType) (a : Alloc) : Alloc :=
  let pool :=
    match t with
    | .AllocTypeRing => g.ringBlocks
    | .AllocTypeBuffer => g.bufferBlocks
    | .AllocTypeCombined => g.combinedBlocks
  match pool[a.blockIndex]? with
  | none => a
  | some blk =>
    { a with buffer := some (blk.buffer + (a.offsetIntoPhys - blk.offsetIntoPhys))
             dedicatedContextHandle := blk.dedicatedContextHandle
             hostmemId := blk.hostmemId }

/-- AddressSpaceGraphicsContext::saveAllocation. -/
def saveAllocation (a : Alloc) : List Nat :=
  putBe64 a.blockIndex ++ putBe64 a.offsetIntoPhys ++ putBe64 a.size ++
    putBe32 (if a.isView then 1 else 0)

/-- AddressSpaceGraphicsContext::loadAllocation: only the four
serialized descriptor fields are assigned. -/
def loadAllocation (a : Alloc) (l : List Nat) :
    Except Fatal (Alloc × List Nat) :=
  match getBe64 l with
  | .error e => .error e
  | .ok (blockIndex, l1) =>
    match getBe64 l1 with
    | .error e => .error e
    | .ok (offs, l2) =>
      match getBe64 l2 with
      | .error e => .error e
      | .ok (size, l3) =>
        match getBe32 l3 with
        | .error e => .error e
        | .ok (isView, l4) =>
          .ok ({ a with blockIndex := blockIndex
                        offsetIntoPhys := offs
                        size := size
                        isView := isView ≠ 0 }, l4)

/-- AddressSpaceGraphicsContext::saveRingConfig. -/
def saveRingConfig (cfg : RingConfig) : List Nat :=
  putBe32 cfg.buffer_size ++ putBe32 cfg.flush_interval ++
  putBe32 cfg.host_consumed_pos ++ putBe32 cfg.guest_write_pos ++
  putBe32 cfg.transfer_mode ++ putBe32 cfg.transfer_size ++
  putBe32 cfg.in_error

/-- AddressSpaceGraphicsContext::loadRingConfig. -/
def loadRingConfig (l : List Nat) : Except Fatal (RingConfig × List Nat) :=
  match getBe32 l with
  | .error e => .error e
  | .ok (bufferSize, l1) =>
    match getBe32 l1 with
    | .error e => .error e
    | .ok (flushInterval, l2) =>
      match getBe32 l2 with
      | .error e => .error e
      | .ok (hostConsumedPos, l3) =>
        match getBe32 l3 with
        | .error e => .error e
        | .ok (guestWritePos, l4) =>
          match getBe32 l4 with
          | .error e => .error e
          | .ok (transferMode, l5) =>
            match getBe32 l5 with
            | .error e => .error e
            | .ok (transferSize, l6) =>
              match getBe32 l6 with
              | .error e => .error e
              | .ok (inError, l7) =>
                .ok ({ buffer_size := bufferSize
                       flush_interval := flushInterval
                       host_consumed_pos := hostConsumedPos
                       guest_write_pos := guestWritePos
                       transfer_mode := transferMode
                       transfer_size := transferSize
                       in_error := inError }, l7)

/-- AddressSpaceGraphicsContext::save.  The external Consumer
Interface's own serialization is abstracted as `csave` applied to the
consumer handle. -/
def ctxSave (csave : Nat → List Nat) (c : Ctx) : List Nat :=
  (match c.virtioGpuInfo with
   | some info =>
     putBe32 1 ++ putBe32 info.contextId ++ putBe32 info.capsetId ++
       (match info.name with
        | some n => putBe32 1 ++ putString n
        | none => putBe32 0)
   | none => putBe32 0) ++
  putBe32 c.version ++
  putBe32 c.exiting ++
  putBe32 c.unavailableReadCount ++
  saveAllocation c.ringAllocation ++
  saveAllocation c.bufferAllocation ++
  saveAllocation c.combinedAllocation ++
  saveRingConfig c.savedConfig ++
  (match c.consumer with
   | some k => putBe32 1 ++ csave k
   | none => putBe32 0)

/-- AddressSpaceGraphicsContext::load.  The virtio identity, scalar
fields, the three Allocation descriptors, the saved ring config and the
optional consumer are read back; pointers are refilled from the already
reloaded Globals pools (views are rebuilt for the virtio path); the live
ring header is recreated over the buffers, its live positions residing
in shared guest memory.  The collaborator reconstructs its consumer from
the remaining stream via `cload`. -/
def ctxLoad (g : Globals) (cload : List Nat → Option (Nat × List Nat))
    (l : List Nat) : Except Fatal (Ctx × List Nat) :=
  match getBe32 l with
  | .error e => .error e
  | .ok (vflag, l1) =>
    match
      (if vflag = 1 then
        match getBe32 l1 with
        | .error e => .error e
        | .ok (cid, l2) =>
          match getBe32 l2 with
          | .error e => .error e
          | .ok (cap, l3) =>
            match getBe32 l3 with
            | .error e => .error e
            | .ok (nflag, l4) =>
              if nflag = 1 then
                match getString l4 with
                | .error e => .error e
                | .ok (nm, l5) =>
                  Except.ok (some { contextId := cid, capsetId := cap
                                    name := some nm : VirtioGpuInfo }, l5)
              else
                Except.ok (some { contextId := cid, capsetId := cap
                                  name := none : VirtioGpuInfo }, l4)
      else Except.ok ((none : Option VirtioGpuInfo), l1)) with
    | .error e => .error e
    | .ok (vinfo, l5) =>
      match getBe32 l5 with
      | .error e => .error e
      | .ok (version, l6) =>
        match getBe32 l6 with
        | .error e => .error e
        | .ok (exiting, l7) =>
          match getBe32 l7 with
          | .error e => .error e
          | .ok (unavailableReadCount, l8) =>
            match loadAllocation Alloc.init l8 with
            | .error e => .error e
            | .ok (ring0, l9) =>
              match loadAllocation Alloc.init l9 with
              | .error e => .error e
              | .ok (buf0, l10) =>
                match loadAllocation Alloc.init l10 with
                | .error e => .error e
                | .ok (comb0, l11) =>
                  let (ring1, buf1, comb1) :=
                    if vinfo.isSome then
                      let comb := fillAllocFromLoad g .AllocTypeCombined comb0
                      (allocRingViewIntoCombined comb,
                       allocBufferViewIntoCombined g.perContextBufferSize comb,
                       comb)
                    else
                      (fillAllocFromLoad g .AllocTypeRing ring0,
                       fillAllocFromLoad g .AllocTypeBuffer buf0,
                       comb0)
                  let cfg : RingConfig :=
                    { buffer_size := g.perContextBufferSize
                      flush_interval := g.writeStepSize
                      host_consumed_pos := 0
                      guest_write_pos := 0
                      transfer_mode := 0
                      transfer_size := 0
                      in_error := 0 }
                  match loadRingConfig l11 with
                  | .error e => .error e
                  | .ok (savedCfg, l12) =>
                    match getBe32 l12 with
                    | .error e => .error e
                    | .ok (cflag, l13) =>
                      match
                        (if cflag = 1 then
                          match cload l13 with
                          | none => Except.error Fatal.consumerLoadFailed
                          | some (k, l14) =>
                            Except.ok ((some k : Option Nat), 1, l14)
                        else Except.ok ((none : Option Nat), 0, l13)) with
                      | .error e => .error e
                      | .ok (consumer, created, l14) =>
                        .ok ({ virtioGpuInfo := vinfo
                               ringAllocation := ring1
                               bufferAllocation := buf1
                               combinedAllocation := comb1
                               version := version
                               exiting := exiting
                               unavailableReadCount := unavailableReadCount
                               ringConfig := cfg
                               hostState := .CanConsume
                               savedConfig := savedCfg
                               consumer := consumer
                               consumersCreated := created }, l14)

/-- Reachable-state bounds for a Block: every serialized field fits its
wire width, a non-empty block owns a live SubAllocator, and the
external/internal flag combinations are the ones fillBlockLocked
produces (external blocks are dedicated virtio blocks at physical
offset 0; internal blocks are non-dedicated, non-virtio, of
architectural block size with hostmem id 0 and fully materialized
contents). -/
def Block.wfb (b : Block) : Bool :=
  if b.isEmpty then true
  else
    decide (b.bufferSize < 256 ^ 8) &&
    decide (b.offsetIntoPhys < 256 ^ 8) &&
    decide (b.hostmemId < 256 ^ 8) &&
    (match b.dedicatedContextHandle with
     | some h => decide (h < 256 ^ 4)
     | none => true) &&
    (match b.subAlloc with
     | some sa => sa.wfb
     | none => false) &&
    (if b.external then
      b.usesVirtioGpuHostmem && b.dedicatedContextHandle.isSome &&
        decide (b.offsetIntoPhys = 0)
     else
      !b.usesVirtioGpuHostmem && b.dedicatedContextHandle.isNone &&
        decide (b.hostmemId = 0) &&
        decide (b.bufferSize = ADDRESS_SPACE_GRAPHICS_BLOCK_SIZE) &&
        decide (b.contents.length = b.bufferSize))

/-- The load-resources map supplies, for each surviving external block,
the same external memory (address and bytes) the block had at save
time. -/
def blockResourcesOk (resources : LoadResources) (b : Block) : Prop :=
  b.isEmpty = false → b.external = true →
    ∀ h, b.dedicatedContextHandle = some h →
      ∃ m, resources = some m ∧
        ∃ em, m h = some em ∧ em.address = b.buffer ∧ em.contents = b.contents

/-- The fields of a surviving Block that claim C1 requires the
save/clear/load round trip to reproduce: buffer contents, physical
offset, dedicated-context-handle, hostmem id. -/
def blockMatches (b b' : Block) : Prop :=
  b'.contents = b.contents ∧ b'.offsetIntoPhys = b.offsetIntoPhys ∧
    b'.dedicatedContextHandle = b.dedicatedContextHandle ∧
    b'.hostmemId = b.hostmemId

/-- Pointwise round-trip relation between an original pool and its
reloaded counterpart. -/
def blockRoundTrip (b b' : Block) : Prop :=
  b'.isEmpty = b.isEmpty ∧ (b.isEmpty = false → blockMatches b b')

def Globals.wfb (g : Globals) : Bool :=
  decide (g.ringBlocks.length < 256 ^ 8) &&
  decide (g.bufferBlocks.length < 256 ^ 8) &&
  decide (g.combinedBlocks.length < 256 ^ 8) &&
  g.ringBlocks.all Block.wfb &&
  g.bufferBlocks.all Block.wfb &&
  g.combinedBlocks.all Block.wfb

def globalsResourcesOk (g : Globals) (resources : LoadResources) : Prop :=
  (∀ b ∈ g.ringBlocks, blockResourcesOk resources b) ∧
  (∀ b ∈ g.bufferBlocks, blockResourcesOk resources b) ∧
  (∀ b ∈ g.combinedBlocks, blockResourcesOk resources b)

def Alloc.wfb (a : Alloc) : Bool :=
  decide (a.blockIndex < 256 ^ 8) && decide (a.offsetIntoPhys < 256 ^ 8) &&
    decide (a.size < 256 ^ 8)

def RingConfig.wfb (cfg : RingConfig) : Bool :=
  decide (cfg.buffer_size < 256 ^ 4) && decide (cfg.flush_interval < 256 ^ 4) &&
  decide (cfg.host_consumed_pos < 256 ^ 4) &&
  decide (cfg.guest_write_pos < 256 ^ 4) &&
  decide (cfg.transfer_mode < 256 ^ 4) && decide (cfg.transfer_size < 256 ^ 4) &&
  decide (cfg.in_error < 256 ^ 4)

/-- Reachable-state bounds for a context: every serialized field fits
its wire width. -/
def Ctx.wfb (c : Ctx) : Bool :=
  decide (c.version < 256 ^ 4) && decide (c.exiting < 256 ^ 4) &&
  decide (c.unavailableReadCount < 256 ^ 4) &&
  c.ringAllocation.wfb && c.bufferAllocation.wfb &&
  c.combinedAllocation.wfb && c.savedConfig.wfb &&
  (match c.virtioGpuInfo with
   | some info =>
     decide (info.contextId < 256 ^ 4) && decide (info.capsetId < 256 ^ 4) &&
       (match info.name with
        | some n => decide (n.length < 256 ^ 4)
        | none => true)
   | none => true)

/-- Whether a fallible computation succeeded. -/
def exceptIsOk {ε α : Type} : Except ε α → Bool
  | .ok _ => true
  | .error _ => false

end Asg


namespace Asg

theorem getBeN_beBytes (k : Nat) : ∀ (v : Nat) (r : List Nat), v < 256 ^ k →
    getBeN k (beBytes k v ++ r) = .ok (v, r) := by
  induction k with
  | zero =>
    intro v r hv
    obtain rfl : v = 0 := Nat.lt_one_iff.mp hv
    rfl
  | succ k ih =>
    intro v r hv
    have h1 : v % 256 ^ k < 256 ^ k := Nat.mod_lt _ (by positivity)
    simp only [beBytes, List.cons_append, getBeN, List.append_eq]
    rw [ih _ r h1]
    simp only []
    rw [Nat.div_add_mod']

theorem getBeN_putBeN (k v : Nat) (r : List Nat) :
    getBeN k (putBeN k v ++ r) = .ok (v % 256 ^ k, r) :=
  getBeN_beBytes k _ r (Nat.mod_lt _ (by positivity))

theorem getBe32_putBe32 (v : Nat) (r : List Nat) :
    getBe32 (putBe32 v ++ r) = .ok (v % 256 ^ 4, r) :=
  getBeN_putBeN 4 v r

theorem getBe64_putBe64 (v : Nat) (r : List Nat) :
    getBe64 (putBe64 v ++ r) = .ok (v % 256 ^ 8, r) :=
  getBeN_putBeN 8 v r

theorem getBe32_putBe32_of_lt {v : Nat} (hv : v < 256 ^ 4) (r : List Nat) :
    getBe32 (putBe32 v ++ r) = .ok (v, r) := by
  rw [getBe32_putBe32, Nat.mod_eq_of_lt hv]

theorem getBe64_putBe64_of_lt {v : Nat} (hv : v < 256 ^ 8) (r : List Nat) :
    getBe64 (putBe64 v ++ r) = .ok (v, r) := by
  rw [getBe64_putBe64, Nat.mod_eq_of_lt hv]

theorem getBytes_append (c r : List Nat) :
    getBytes c.length (c ++ r) = .ok (c, r) := by
  unfold getBytes
  rw [if_pos (by simp)]
  simp

theorem getString_putString {s : List Nat} (hs : s.length < 256 ^ 4)
    (r : List Nat) : getString (putString s ++ r) = .ok (s, r) := by
  unfold getString putString
  rw [List.append_assoc, getBe32_putBe32_of_lt hs]
  exact getBytes_append s r


theorem loadPairs_savePairs (ps : List (Nat × Nat))
    (hwf : ps.all pairWFb = true) (r : List Nat) :
    loadPairs ps.length (savePairs ps ++ r) = .ok (ps, r) := by
  induction ps with
  | nil => rfl
  | cons p ps ih =>
    simp only [List.all_cons, Bool.and_eq_true, pairWFb, decide_eq_true_eq] at hwf
    obtain ⟨⟨h1, h2⟩, hrest⟩ := hwf
    simp only [List.length_cons, savePairs, loadPairs, List.append_assoc]
    rw [getBe64_putBe64_of_lt h1]
    simp only []
    rw [getBe64_putBe64_of_lt h2]
    simp only []
    rw [ih hrest]

theorem subAllocLoad_subAllocSave (sa : SubAlloc) (hwf : sa.wfb = true)
    (r : List Nat) : subAllocLoad (subAllocSave sa ++ r) = .ok (sa, r) := by
  simp only [SubAlloc.wfb, Bool.and_eq_true, decide_eq_true_eq] at hwf
  obtain ⟨⟨⟨h1, h2⟩, h3⟩, h4⟩ := hwf
  simp only [subAllocSave, subAllocLoad, List.append_assoc]
  rw [getBe64_putBe64_of_lt h1]
  simp only []
  rw [getBe64_putBe64_of_lt h2]
  simp only []
  rw [getBe64_putBe64_of_lt h3]
  simp only []
  rw [loadPairs_savePairs sa.allocs h4]

/-- C2: for a context whose exiting flag is clear, onUnavailableRead
returns immediately (retrying with 0) below the threshold of 8
consecutive unavailable reads, touching only the counter; exactly on the
call where the count reaches 8 it sets the shared host-state to
NEED_NOTIFY and enters the blocking receive (blocked when no message is
pending), and a Wakeup received there restores CAN_CONSUME, leaves the
counter at 0 and returns the retry value 1. -/
theorem claim_c2 (c : Ctx) (msgs rest : List ConsumerCommand)
    (hex : c.exiting = 0) :
    (c.unavailableReadCount + 1 < 8 →
      onUnavailableRead c msgs =
        .immediate 0 { c with unavailableReadCount := c.unavailableReadCount + 1 }) ∧
    (c.unavailableReadCount + 1 = 8 →
      onUnavailableRead c [] =
        .blocked { c with unavailableReadCount := 0, hostState := .NeedNotify } ∧
      onUnavailableRead c (.Wakeup :: rest) =
        .returned 1 { c with unavailableReadCount := 0, hostState := .CanConsume }
          rest) := by
  constructor
  · intro h
    have hm : (c.unavailableReadCount + 1) % 256 ^ 4 = c.unavailableReadCount + 1 :=
      Nat.mod_eq_of_lt (lt_of_lt_of_le h (by norm_num))
    simp only [onUnavailableRead, hex, ne_eq, not_true_eq_false, if_false, hm]
    rw [if_neg (by omega)]
  · intro h
    have hm : (c.unavailableReadCount + 1) % 256 ^ 4 = 8 := by
      rw [h]
      norm_num
    constructor
    · simp only [onUnavailableRead, hex, ne_eq, not_true_eq_false, if_false, hm]
      rw [if_pos (by norm_num)]
      rfl
    · simp only [onUnavailableRead, hex, ne_eq, not_true_eq_false, if_false, hm]
      rw [if_pos (by norm_num)]
      rfl

theorem claim_c2_witness :
    onUnavailableRead ({ unavailableReadCount := 6 } : Ctx) [] =
      .immediate 0 { unavailableReadCount := 7 } ∧
    onUnavailableRead ({ unavailableReadCount := 7 } : Ctx) [.Wakeup] =
      .returned 1 { unavailableReadCount := 0, hostState := .CanConsume } [] := by
  constructor
  · exact (claim_c2 { unavailableReadCount := 6 } [] [] rfl).1 (by decide)
  · exact ((claim_c2 { unavailableReadCount := 7 } [.Wakeup] [] rfl).2
      (by decide)).2

/-- C8: with the receive reached (the counter at the threshold), an Exit
command yielded by the blocking receive sets the shared host-state to
EXIT and returns the stop sentinel -1 leaving the rest of the message
sequence unconsumed (no re-entry into the wait), whereas a Sleep command
loops back into the same blocking wait. -/
theorem claim_c8 (c : Ctx) (rest : List ConsumerCommand)
    (h7 : c.unavailableReadCount = 7) :
    onUnavailableRead c (.Exit :: rest) =
      .returned (-1) { c with unavailableReadCount := 0, hostState := .Exit }
        rest ∧
    ∀ (c2 : Ctx), sleepLoop c2 (.Sleep :: rest) =
      sleepLoop { c2 with hostState := .NeedNotify } rest := by
  constructor
  · have hm : (c.unavailableReadCount + 1) % 256 ^ 4 = 8 := by
      rw [h7]
      norm_num
    simp only [onUnavailableRead, hm]
    have h8 : (if c.exiting ≠ 0 then 8 else 8) = 8 := by
      split <;> rfl
    rw [h8, if_pos (by norm_num)]
    rfl
  · intro c2
    rfl

theorem claim_c8_witness :
    onUnavailableRead ({ unavailableReadCount := 7 } : Ctx) [.Exit] =
      .returned (-1) { unavailableReadCount := 0, hostState := .Exit } [] ∧
    sleepLoop ({} : Ctx) [.Sleep] =
      sleepLoop { hostState := .NeedNotify } [] :=
  ⟨(claim_c8 { unavailableReadCount := 7 } [] rfl).1,
   (claim_c8 { unavailableReadCount := 7 } [] rfl).2 {}⟩

/-- C10: when the exiting flag is set, onUnavailableRead forces the
counter to the threshold, so the call enters the NEED_NOTIFY /
blocking-receive path immediately, whatever the previous count was. -/
theorem claim_c10 (c : Ctx) (msgs : List ConsumerCommand)
    (hex : c.exiting ≠ 0) :
    onUnavailableRead c msgs = sleepLoop { c with unavailableReadCount := 0 } msgs ∧
    onUnavailableRead c [] =
      .blocked { c with unavailableReadCount := 0, hostState := .NeedNotify } := by
  constructor
  · simp only [onUnavailableRead]
    rw [if_pos hex, if_pos (le_refl 8)]
  · simp only [onUnavailableRead]
    rw [if_pos hex, if_pos (le_refl 8)]
    rfl

theorem claim_c10_witness :
    onUnavailableRead ({ exiting := 1, unavailableReadCount := 0 } : Ctx) [] =
      .blocked { exiting := 1, unavailableReadCount := 0,
                 hostState := .NeedNotify } :=
  (claim_c10 { exiting := 1, unavailableReadCount := 0 } [] (by decide)).2

/-- C7: freeing a view Allocation through freeRingStorage or freeBuffer
leaves the Globals state (hence every Block and its SubAllocator
accounting) unchanged and never fails, and repeating the free is
likewise a no-op. -/
theorem claim_c7 (g : Globals) (a : Alloc) (hv : a.isView = true) :
    freeRingStorage g a = .ok g ∧ freeBuffer g a = .ok g ∧
    (match freeRingStorage g a with
     | .ok g1 => freeRingStorage g1 a
     | .error e => .error e) = .ok g ∧
    (match freeBuffer g a with
     | .ok g1 => freeBuffer g1 a
     | .error e => .error e) = .ok g := by
  simp [freeRingStorage, freeBuffer, hv]

theorem claim_c7_witness :
    freeRingStorage ({} : Globals) ({ isView := true } : Alloc) = .ok {} ∧
    freeBuffer ({} : Globals) ({ isView := true } : Alloc) = .ok {} :=
  ⟨(claim_c7 {} { isView := true } rfl).1,
   (claim_c7 {} { isView := true } rfl).2.1⟩

/-- C4 (amended): a SET_VERSION ping stores min(host version, guest
version) as the negotiated version and returns it in the ping's size
field, and for virtio contexts sets the ping's metadata to the combined
allocation's hostmem id; however the consumer is created on every
SET_VERSION ping — deferred from construction, but not only on first
use: each such ping invokes the consumer interface's create, replacing
any existing handle. -/
theorem claim_c4 (c : Ctx) (info : PingInfo) (h : info.metadata = 2) :
    (perform c info).2.size = min c.version (info.size % 256 ^ 4) ∧
    (perform c info).1.version = min c.version (info.size % 256 ^ 4) ∧
    (perform c info).1.consumersCreated = c.consumersCreated + 1 ∧
    (perform c info).1.consumer = some (c.consumersCreated + 1) ∧
    (c.virtioGpuInfo.isSome = true →
      (perform c info).2.metadata = c.combinedAllocation.hostmemId) := by
  cases hvirt : c.virtioGpuInfo.isSome <;>
    simp [perform, h, asgCommandOfNat, hvirt, Nat.min_def] <;>
    (split <;> split <;> omega)

theorem claim_c4_witness :
    (perform ({ version := 5 } : Ctx) { metadata := 2, size := 3 }).2.size =
      min 5 3 ∧
    (perform ({ version := 5 } : Ctx)
        { metadata := 2, size := 3 }).1.consumersCreated = 1 :=
  ⟨(claim_c4 { version := 5 } { metadata := 2, size := 3 } rfl).1,
   (claim_c4 { version := 5 } { metadata := 2, size := 3 } rfl).2.2.1⟩

/-- C4 counterexample: a consumer already exists after a first
SET_VERSION ping, yet a second SET_VERSION ping performs another
consumer creation (the create count goes from 1 to 2), so the consumer
is not created "on first use only". -/
theorem claim_c4_counterexample :
    (perform ({} : Ctx) { metadata := 2, size := 1 }).1.consumer.isSome = true ∧
    (perform (perform ({} : Ctx) { metadata := 2, size := 1 }).1
        { metadata := 2, size := 1 }).1.consumersCreated = 2 := by
  decide

theorem fillBlockLocked_ne_sizeError (b : Block) (create : AllocationCreateInfo)
    (np : Nat) : fillBlockLocked b create np ≠ .error .sizeExceedsBlockSize := by
  unfold fillBlockLocked
  intro h
  split at h <;> (try split at h) <;> (try split at h) <;> simp_all

theorem scanBlocks_ne_sizeError (create : AllocationCreateInfo) :
    ∀ (blocks : List Block) (idx np : Nat),
      scanBlocks create idx blocks np ≠ .error .sizeExceedsBlockSize := by
  intro blocks
  induction blocks with
  | nil =>
    intro idx np h
    simp [scanBlocks] at h
  | cons b rest ih =>
    intro idx np h
    rw [scanBlocks] at h
    cases hfill : (if b.isEmpty then fillBlockLocked b create np
        else Except.ok (b, np)) with
    | error e =>
      rw [hfill] at h
      simp only [] at h
      injection h with h2
      subst h2
      by_cases hb : b.isEmpty = true
      · rw [if_pos hb] at hfill
        exact fillBlockLocked_ne_sizeError b create np hfill
      · rw [if_neg hb] at hfill
        simp at hfill
    | ok val =>
      obtain ⟨b1, np1⟩ := val
      rw [hfill] at h
      simp only [] at h
      by_cases hd : b1.dedicatedContextHandle ≠ create.dedicatedContextHandle
      · rw [if_pos hd] at h
        cases hrec : scanBlocks create (idx + 1) rest np1 with
        | error e =>
          rw [hrec] at h
          simp only [] at h
          injection h with h2
          exact ih (idx + 1) np1 (h2 ▸ hrec)
        | ok val2 =>
          obtain ⟨r2, rest2, np2⟩ := val2
          rw [hrec] at h
          simp at h
      · rw [if_neg hd] at h
        cases hsa : b1.subAlloc with
        | none =>
          rw [hsa] at h
          simp at h
        | some sa =>
          rw [hsa] at h
          simp only [] at h
          cases halloc : sa.alloc create.size with
          | none =>
            rw [halloc] at h
            simp only [] at h
            cases hrec : scanBlocks create (idx + 1) rest np1 with
            | error e =>
              rw [hrec] at h
              simp only [] at h
              injection h with h2
              exact ih (idx + 1) np1 (h2 ▸ hrec)
            | ok val2 =>
              obtain ⟨r2, rest2, np2⟩ := val2
              rw [hrec] at h
              simp at h
          | some pair =>
            obtain ⟨off, sa2⟩ := pair
            rw [halloc] at h
            simp at h

/-- C5: an allocation request exceeding the architectural block size is
rejected fatally by newAllocation with the dedicated size diagnostic,
and for requests at or below the block size that abort is unreachable
(whatever else happens). -/
theorem claim_c5 (create : AllocationCreateInfo) (blocks : List Block)
    (np : Nat) :
    (create.size > ADDRESS_SPACE_GRAPHICS_BLOCK_SIZE →
      newAllocation create blocks np = .error .sizeExceedsBlockSize) ∧
    (create.size ≤ ADDRESS_SPACE_GRAPHICS_BLOCK_SIZE →
      newAllocation create blocks np ≠ .error .sizeExceedsBlockSize) := by
  constructor
  · intro h
    unfold newAllocation
    rw [if_pos h]
  · intro hle h
    unfold newAllocation at h
    rw [if_neg (by omega)] at h
    cases hscan : scanBlocks create 0 blocks np with
    | error e =>
      rw [hscan] at h
      simp only [] at h
      injection h with h2
      exact scanBlocks_ne_sizeError create blocks 0 np (h2 ▸ hscan)
    | ok val =>
      obtain ⟨r, blocks1, np1⟩ := val
      rw [hscan] at h
      cases r with
      | some a => simp at h
      | none =>
        simp only [] at h
        cases hfill : fillBlockLocked Block.init create np1 with
        | error e =>
          rw [hfill] at h
          simp only [] at h
          injection h with h2
          exact fillBlockLocked_ne_sizeError _ _ _ (h2 ▸ hfill)
        | ok val2 =>
          obtain ⟨nb, np2⟩ := val2
          rw [hfill] at h
          simp only [] at h
          cases hsa : nb.subAlloc with
          | none =>
            rw [hsa] at h
            simp at h
          | some sa =>
            rw [hsa] at h
            simp only [] at h
            cases halloc : sa.alloc create.size with
            | none =>
              rw [halloc] at h
              simp at h
            | some pair =>
              obtain ⟨off, sa2⟩ := pair
              rw [halloc] at h
              simp at h

theorem claim_c5_witness :
    newAllocation { size := ADDRESS_SPACE_GRAPHICS_BLOCK_SIZE + 1 } [] 0 =
      .error .sizeExceedsBlockSize ∧
    newAllocation { size := 4096, virtioGpu := true, externalAddr := some 1000,
                    dedicatedContextHandle := some 5 } [] 0 ≠
      .error .sizeExceedsBlockSize :=
  ⟨(claim_c5 { size := ADDRESS_SPACE_GRAPHICS_BLOCK_SIZE + 1 } [] 0).1
     (by decide),
   (claim_c5 { size := 4096, virtioGpu := true, externalAddr := some 1000,
               dedicatedContextHandle := some 5 } [] 0).2 (by decide)⟩

/-- C3: deleteAllocation is a no-op on a null buffer; aborts fatally on
an out-of-range block index; destroys an external owning block outright
without any SubAllocator free; aborts fatally when the SubAllocator free
fails; and for a non-external block frees the range and destroys the
block exactly when the SubAllocator then reports empty. -/
theorem claim_c3 (a : Alloc) (blocks : List Block) :
    (a.buffer = none → deleteAllocation a blocks = .ok blocks) ∧
    (∀ p, a.buffer = some p → blocks.length ≤ a.blockIndex →
      deleteAllocation a blocks = .error .blockIndexOutOfRange) ∧
    (∀ p (h : a.blockIndex < blocks.length), a.buffer = some p →
      (blocks.get ⟨a.blockIndex, h⟩).external = true →
      deleteAllocation a blocks =
        .ok (blocks.set a.blockIndex
          (destroyBlockLocked (blocks.get ⟨a.blockIndex, h⟩)))) ∧
    (∀ p (h : a.blockIndex < blocks.length) sa, a.buffer = some p →
      (blocks.get ⟨a.blockIndex, h⟩).external = false →
      (blocks.get ⟨a.blockIndex, h⟩).subAlloc = some sa →
      (sa.free (p - (blocks.get ⟨a.blockIndex, h⟩).buffer) = none →
        deleteAllocation a blocks = .error .freeFailed) ∧
      (∀ sa2, sa.free (p - (blocks.get ⟨a.blockIndex, h⟩).buffer) = some sa2 →
        deleteAllocation a blocks =
          .ok (blocks.set a.blockIndex
            (if sa2.empty then
              destroyBlockLocked
                { blocks.get ⟨a.blockIndex, h⟩ with subAlloc := some sa2 }
             else
              { blocks.get ⟨a.blockIndex, h⟩ with subAlloc := some sa2 })))) := by
  refine ⟨?_, ?_, ?_, ?_⟩
  · intro hb
    simp [deleteAllocation, hb]
  · intro p hb hlen
    simp [deleteAllocation, hb, List.getElem?_eq_none hlen]
  · intro p h hb hext
    rw [List.get_eq_getElem] at hext
    simp [deleteAllocation, hb, List.getElem?_eq_getElem h, hext,
      List.get_eq_getElem]
  · intro p h sa hb hext hsa
    rw [List.get_eq_getElem] at hext hsa
    constructor
    · intro hfree
      rw [List.get_eq_getElem] at hfree
      simp [deleteAllocation, hb, List.getElem?_eq_getElem h, hext, hsa, hfree,
        List.get_eq_getElem]
    · intro sa2 hfree
      rw [List.get_eq_getElem] at hfree
      simp only [deleteAllocation, hb, List.getElem?_eq_getElem h, hext, hsa,
        hfree, List.get_eq_getElem, shouldDestryBlockLocked, Bool.false_eq_true,
        if_false]
      split <;> simp_all [shouldDestryBlockLocked]

theorem claim_c3_witness :
    deleteAllocation ({} : Alloc) [] = .ok [] ∧
    deleteAllocation ({ buffer := some 0 } : Alloc) [] =
      .error .blockIndexOutOfRange ∧
    deleteAllocation ({ buffer := some 1000 } : Alloc)
        [{ buffer := 1000, isEmpty := false, external := true,
           subAlloc := some { pageSize := 4096, totalSize := 4096,
                              allocs := [(0, 4096)] } }] =
      .ok [{ buffer := 1000, isEmpty := true, external := true,
             subAlloc := none }] ∧
    deleteAllocation ({ buffer := some 2000 } : Alloc)
        [{ buffer := 2000, isEmpty := false, external := false,
           subAlloc := some { pageSize := 4096, totalSize := 8192,
                              allocs := [(0, 4096)] } }] =
      .ok [{ buffer := 2000, isEmpty := true, external := false,
             subAlloc := none }] := by
  refine ⟨?_, ?_, ?_, ?_⟩
  · exact (claim_c3 {} []).1 rfl
  · exact (claim_c3 { buffer := some 0 } []).2.1 0 rfl (by decide)
  · have h := (claim_c3 { buffer := some 1000 }
      [{ buffer := 1000, isEmpty := false, external := true,
         subAlloc := some { pageSize := 4096, totalSize := 4096,
                            allocs := [(0, 4096)] } }]).2.2.1 1000
      (by decide) (by decide) (by decide)
    simpa [destroyBlockLocked] using h
  · have h := ((claim_c3 { buffer := some 2000 }
      [{ buffer := 2000, isEmpty := false, external := false,
         subAlloc := some { pageSize := 4096, totalSize := 8192,
                            allocs := [(0, 4096)] } }]).2.2.2 2000
      (by decide)
      { pageSize := 4096, totalSize := 8192, allocs := [(0, 4096)] }
      (by decide) (by decide) (by decide)).2
      { pageSize := 4096, totalSize := 8192, allocs := [] } (by decide)
    simpa [destroyBlockLocked] using h

theorem allocRingAndBufferStorageDedicated_pcbs (g : Globals)
    (ac : AddressSpaceCreateInfo) (a : Alloc) (g1 : Globals)
    (h : allocRingAndBufferStorageDedicated g ac = .ok (a, g1)) :
    g1.perContextBufferSize = g.perContextBufferSize := by
  unfold allocRingAndBufferStorageDedicated at h
  split at h
  · exact absurd h (by simp)
  · split at h
    · simp only [] at h
      split at h
      · exact absurd h (by simp)
      · injection h with h2
        rw [Prod.mk.injEq] at h2
        obtain ⟨-, hg⟩ := h2
        rw [← hg]
    · simp only [] at h
      split at h
      · exact absurd h (by simp)
      · try simp only [] at h
        split at h
        · exact absurd h (by simp)
        · injection h with h2
          rw [Prod.mk.injEq] at h2
          obtain ⟨-, hg⟩ := h2
          rw [← hg]

/-- C6: a virtio context constructed with a dedicated handle and
external address/size carries a ring Allocation that is a view of the
combined Allocation at byte offset 0 with the ring-header size, a
buffer Allocation that is a view at byte offset equal to the ring-header
size with the per-context buffer size, and both views share the combined
Allocation's hostmem id. -/
theorem claim_c6 (g : Globals) (create : AddressSpaceCreateInfo) (ctx : Ctx)
    (g2 : Globals) (addr : Nat)
    (h : mkContext g create = .ok (ctx, g2))
    (hsnap : create.fromSnapshot = false) (hv : create.isVirtio = true)
    (_hhandle : create.handle ≠ 0) (_hea : create.externalAddr = some addr) :
    ∃ base, ctx.combinedAllocation.buffer = some base ∧
      ctx.ringAllocation.buffer = some (base + 0) ∧
      ctx.ringAllocation.size = asgRingStorageSize ∧
      ctx.ringAllocation.isView = true ∧
      ctx.bufferAllocation.buffer = some (base + asgRingStorageSize) ∧
      ctx.bufferAllocation.size = g.perContextBufferSize ∧
      ctx.bufferAllocation.isView = true ∧
      ctx.ringAllocation.hostmemId = ctx.combinedAllocation.hostmemId ∧
      ctx.bufferAllocation.hostmemId = ctx.combinedAllocation.hostmemId := by
  unfold mkContext at h
  rw [if_neg (by simp [hsnap])] at h
  cases hmk : mkContextAllocs g create with
  | error e =>
    rw [hmk] at h
    simp at h
  | ok val =>
    obtain ⟨vinfo, ring, buf, comb, g3⟩ := val
    rw [hmk] at h
    simp only [] at h
    unfold mkContextAllocs at hmk
    rw [if_pos hv] at hmk
    cases hded : allocRingAndBufferStorageDedicated g create with
    | error e =>
      rw [hded] at hmk
      simp at hmk
    | ok val2 =>
      obtain ⟨comb2, g4⟩ := val2
      have hpcbs := allocRingAndBufferStorageDedicated_pcbs g create comb2 g4 hded
      rw [hded] at hmk
      simp only [] at hmk
      injection hmk with hmk2
      rw [Prod.mk.injEq, Prod.mk.injEq, Prod.mk.injEq, Prod.mk.injEq] at hmk2
      obtain ⟨hvi, hr, hbf, hcb, hg⟩ := hmk2
      subst hr hbf hcb hg
      cases hcbuf : comb2.buffer with
      | none =>
        rw [show (allocRingViewIntoCombined comb2).buffer = comb2.buffer from rfl,
          hcbuf] at h
        simp at h
      | some base =>
        rw [show (allocRingViewIntoCombined comb2).buffer = comb2.buffer from rfl,
          hcbuf] at h
        rw [if_neg (by simp)] at h
        rw [show (allocBufferViewIntoCombined g4.perContextBufferSize
            comb2).buffer = comb2.buffer.map (· + asgRingStorageSize) from rfl,
          hcbuf] at h
        rw [if_neg (by simp)] at h
        injection h with h2
        rw [Prod.mk.injEq] at h2
        obtain ⟨hctx, -⟩ := h2
        subst hctx
        refine ⟨base, ?_⟩
        simp [allocRingViewIntoCombined, allocBufferViewIntoCombined, hcbuf,
          hpcbs]

theorem claim_c6_witness :
    ∃ ctx g2 base,
      mkContext { perContextBufferSize := 4096 }
          { isVirtio := true, handle := 7, externalAddr := some 5000,
            externalAddrSize := 8192 } = .ok (ctx, g2) ∧
      ctx.combinedAllocation.buffer = some base ∧
      ctx.ringAllocation.buffer = some (base + 0) ∧
      ctx.ringAllocation.size = asgRingStorageSize ∧
      ctx.bufferAllocation.buffer = some (base + asgRingStorageSize) ∧
      ctx.bufferAllocation.isView = true := by
  have hok : exceptIsOk (mkContext { perContextBufferSize := 4096 }
      { isVirtio := true, handle := 7, externalAddr := some 5000,
        externalAddrSize := 8192 }) = true := by decide
  cases E : mkContext { perContextBufferSize := 4096 }
      { isVirtio := true, handle := 7, externalAddr := some 5000,
        externalAddrSize := 8192 } with
  | error e =>
    rw [E] at hok
    exact absurd hok (by simp [exceptIsOk])
  | ok p =>
    obtain ⟨ctx, g2⟩ := p
    obtain ⟨base, h1, h2, h3, h4, h5, h6, h7, h8, h9⟩ :=
      claim_c6 _ _ ctx g2 5000 E rfl rfl (by decide) rfl
    exact ⟨ctx, g2, base, rfl, h1, h2, h3, h5, h7⟩

theorem putBe32_bytes (v : Nat) :
    putBe32 v = [v % 256 ^ 4 / 256 ^ 3, v % 256 ^ 3 / 256 ^ 2,
      v % 256 ^ 2 / 256, v % 256] := by
  simp only [putBe32, putBeN, beBytes, pow_zero, pow_one, Nat.div_one]
  norm_num

theorem putBe64_bytes (v : Nat) :
    putBe64 v = [v % 256 ^ 8 / 256 ^ 7, v % 256 ^ 7 / 256 ^ 6,
      v % 256 ^ 6 / 256 ^ 5, v % 256 ^ 5 / 256 ^ 4, v % 256 ^ 4 / 256 ^ 3,
      v % 256 ^ 3 / 256 ^ 2, v % 256 ^ 2 / 256, v % 256] := by
  simp only [putBe64, putBeN, beBytes, pow_zero, pow_one, Nat.div_one]
  norm_num

/-- C9: context save writes, in order: the virtio-identity presence flag
with context id, capset id, name-presence flag and length-prefixed name;
the negotiated version; the exiting flag; the unavailable-read counter;
the three Allocation descriptors as ring, buffer, combined, each as
blockIndex, offsetIntoPhys, size, isView; the seven ring-header fields
in their fixed order; and the consumer-presence flag followed by the
consumer's own serialized state — every integer written big-endian. -/
theorem claim_c9 (csave : Nat → List Nat) (c : Ctx) (cid cap : Nat)
    (nm : List Nat) (k : Nat)
    (hv : c.virtioGpuInfo =
      some { contextId := cid, capsetId := cap, name := some nm })
    (hc : c.consumer = some k) :
    ctxSave csave c =
      putBe32 1 ++ putBe32 cid ++ putBe32 cap ++ putBe32 1 ++
      putBe32 nm.length ++ nm ++
      putBe32 c.version ++ putBe32 c.exiting ++
      putBe32 c.unavailableReadCount ++
      putBe64 c.ringAllocation.blockIndex ++
      putBe64 c.ringAllocation.offsetIntoPhys ++
      putBe64 c.ringAllocation.size ++
      putBe32 (if c.ringAllocation.isView then 1 else 0) ++
      putBe64 c.bufferAllocation.blockIndex ++
      putBe64 c.bufferAllocation.offsetIntoPhys ++
      putBe64 c.bufferAllocation.size ++
      putBe32 (if c.bufferAllocation.isView then 1 else 0) ++
      putBe64 c.combinedAllocation.blockIndex ++
      putBe64 c.combinedAllocation.offsetIntoPhys ++
      putBe64 c.combinedAllocation.size ++
      putBe32 (if c.combinedAllocation.isView then 1 else 0) ++
      putBe32 c.savedConfig.buffer_size ++
      putBe32 c.savedConfig.flush_interval ++
      putBe32 c.savedConfig.host_consumed_pos ++
      putBe32 c.savedConfig.guest_write_pos ++
      putBe32 c.savedConfig.transfer_mode ++
      putBe32 c.savedConfig.transfer_size ++
      putBe32 c.savedConfig.in_error ++
      putBe32 1 ++ csave k ∧
    (∀ v, putBe32 v = [v % 256 ^ 4 / 256 ^ 3, v % 256 ^ 3 / 256 ^ 2,
      v % 256 ^ 2 / 256, v % 256]) ∧
    (∀ v, putBe64 v = [v % 256 ^ 8 / 256 ^ 7, v % 256 ^ 7 / 256 ^ 6,
      v % 256 ^ 6 / 256 ^ 5, v % 256 ^ 5 / 256 ^ 4, v % 256 ^ 4 / 256 ^ 3,
      v % 256 ^ 3 / 256 ^ 2, v % 256 ^ 2 / 256, v % 256]) := by
  refine ⟨?_, putBe32_bytes, putBe64_bytes⟩
  simp [ctxSave, hv, hc, saveAllocation, saveRingConfig, putString,
    List.append_assoc]

theorem claim_c9_witness :
    ctxSave (fun k => [k])
        { virtioGpuInfo :=
            some { contextId := 7, capsetId := 9, name := some [65] },
          consumer := some 3 } =
      putBe32 1 ++ putBe32 7 ++ putBe32 9 ++ putBe32 1 ++ putBe32 1 ++ [65] ++
      putBe32 1 ++ putBe32 0 ++ putBe32 0 ++
      putBe64 0 ++ putBe64 0 ++ putBe64 0 ++ putBe32 0 ++
      putBe64 0 ++ putBe64 0 ++ putBe64 0 ++ putBe32 0 ++
      putBe64 0 ++ putBe64 0 ++ putBe64 0 ++ putBe32 0 ++
      putBe32 0 ++ putBe32 0 ++ putBe32 0 ++ putBe32 0 ++
      putBe32 0 ++ putBe32 0 ++ putBe32 0 ++
      putBe32 1 ++ [3] := by
  have h := (claim_c9 (fun k => [k])
      { virtioGpuInfo :=
          some { contextId := 7, capsetId := 9, name := some [65] },
        consumer := some 3 } 7 9 [65] 3 rfl rfl).1
  simpa using h

theorem loadAllocation_saveAllocation (a : Alloc) (hwf : a.wfb = true)
    (r : List Nat) :
    loadAllocation Alloc.init (saveAllocation a ++ r) =
      .ok ({ Alloc.init with blockIndex := a.blockIndex
                             offsetIntoPhys := a.offsetIntoPhys
                             size := a.size
                             isView := a.isView }, r) := by
  simp only [Alloc.wfb, Bool.and_eq_true, decide_eq_true_eq] at hwf
  obtain ⟨⟨h1, h2⟩, h3⟩ := hwf
  simp only [loadAllocation, saveAllocation, List.append_assoc]
  rw [getBe64_putBe64_of_lt h1]
  simp only []
  rw [getBe64_putBe64_of_lt h2]
  simp only []
  rw [getBe64_putBe64_of_lt h3]
  simp only []
  cases hv : a.isView with
  | true =>
    rw [getBe32_putBe32_of_lt (by norm_num)]
    simp
  | false =>
    rw [getBe32_putBe32_of_lt (by norm_num)]
    simp

theorem loadRingConfig_saveRingConfig (cfg : RingConfig)
    (hwf : cfg.wfb = true) (r : List Nat) :
    loadRingConfig (saveRingConfig cfg ++ r) = .ok (cfg, r) := by
  simp only [RingConfig.wfb, Bool.and_eq_true, decide_eq_true_eq] at hwf
  obtain ⟨⟨⟨⟨⟨⟨h1, h2⟩, h3⟩, h4⟩, h5⟩, h6⟩, h7⟩ := hwf
  simp only [loadRingConfig, saveRingConfig, List.append_assoc]
  rw [getBe32_putBe32_of_lt h1]
  simp only []
  rw [getBe32_putBe32_of_lt h2]
  simp only []
  rw [getBe32_putBe32_of_lt h3]
  simp only []
  rw [getBe32_putBe32_of_lt h4]
  simp only []
  rw [getBe32_putBe32_of_lt h5]
  simp only []
  rw [getBe32_putBe32_of_lt h6]
  simp only []
  rw [getBe32_putBe32_of_lt h7]

theorem loadBlockLocked_saveBlockLocked (resources : LoadResources) (b : Block)
    (r : List Nat) (hwf : b.wfb = true) (hres : blockResourcesOk resources b) :
    ∃ b', loadBlockLocked resources Block.init (saveBlockLocked b ++ r) =
        .ok (b', r) ∧ blockRoundTrip b b' := by
  cases hE : b.isEmpty with
  | true =>
    refine ⟨{ Block.init with isEmpty := true }, ?_, ?_, ?_⟩
    · have e1 : ∀ x, getBe32 (putBe32 0 ++ x) = .ok (0, x) := fun x =>
        getBe32_putBe32_of_lt (by norm_num) x
      simp [saveBlockLocked, loadBlockLocked, hE, e1]
    · exact hE.symm
    · intro hf
      rw [hE] at hf
      exact absurd hf (by decide)
  | false =>
    rw [Block.wfb, if_neg (by simp [hE])] at hwf
    simp only [Bool.and_eq_true, decide_eq_true_eq] at hwf
    obtain ⟨⟨⟨⟨⟨hbs, hoff⟩, hhm⟩, hded⟩, hsaw⟩, hextc⟩ := hwf
    cases hsac : b.subAlloc with
    | none =>
      rw [hsac] at hsaw
      exact absurd hsaw (by simp)
    | some sa =>
      rw [hsac] at hsaw
      have e1 : ∀ x, getBe32 (putBe32 1 ++ x) = .ok (1, x) := fun x =>
        getBe32_putBe32_of_lt (by norm_num) x
      have e0 : ∀ x, getBe32 (putBe32 0 ++ x) = .ok (0, x) := fun x =>
        getBe32_putBe32_of_lt (by norm_num) x
      have eBS : ∀ x, getBe64 (putBe64 b.bufferSize ++ x) =
          .ok (b.bufferSize, x) := fun x => getBe64_putBe64_of_lt hbs x
      have eOFF : ∀ x, getBe64 (putBe64 b.offsetIntoPhys ++ x) =
          .ok (b.offsetIntoPhys, x) := fun x => getBe64_putBe64_of_lt hoff x
      have eHM : ∀ x, getBe64 (putBe64 b.hostmemId ++ x) =
          .ok (b.hostmemId, x) := fun x => getBe64_putBe64_of_lt hhm x
      have eSA : ∀ x, subAllocLoad (subAllocSave sa ++ x) = .ok (sa, x) :=
        fun x => subAllocLoad_subAllocSave sa hsaw x
      cases hx : b.external with
      | true =>
        rw [hx] at hextc
        simp only [if_true, Bool.and_eq_true, decide_eq_true_eq] at hextc
        obtain ⟨⟨husesv, hdsome⟩, hoff0⟩ := hextc
        obtain ⟨h, hdh⟩ := Option.isSome_iff_exists.mp hdsome
        obtain ⟨m, hm, em, hmh, hema, hemc⟩ := hres hE hx h hdh
        have hhlt : h < 256 ^ 4 := by
          rw [hdh] at hded
          simpa using hded
        have eH : ∀ x, getBe32 (putBe32 h ++ x) = .ok (h, x) := fun x =>
          getBe32_putBe32_of_lt hhlt x
        refine ⟨{ buffer := b.buffer, bufferSize := b.bufferSize,
                  subAlloc := some sa, offsetIntoPhys := 0, isEmpty := false,
                  usesVirtioGpuHostmem := true, hostmemId := b.hostmemId,
                  dedicatedContextHandle := some h, external := true,
                  contents := b.contents }, ?_, ?_, ?_⟩
        · simp [saveBlockLocked, loadBlockLocked, fillBlockLocked, hE, hdh,
            hsac, hx, husesv, hm, hmh, hema, hemc, e1, e0, eBS, eOFF, eHM,
            eSA, eH]
        · exact hE.symm
        · exact fun _ => ⟨rfl, hoff0.symm, hdh.symm, rfl⟩
      | false =>
        rw [hx] at hextc
        simp only [Bool.false_eq_true, if_false, Bool.and_eq_true,
          decide_eq_true_eq, Bool.not_eq_true',
          Option.isNone_iff_eq_none] at hextc
        obtain ⟨⟨⟨⟨husesv, hdnone⟩, hhm0⟩, hbsz⟩, hclen⟩ := hextc
        have eCT : ∀ x, getBytes ADDRESS_SPACE_GRAPHICS_BLOCK_SIZE
            (b.contents ++ x) = .ok (b.contents, x) := fun x => by
          rw [show ADDRESS_SPACE_GRAPHICS_BLOCK_SIZE = b.contents.length by
            rw [hclen, hbsz]]
          exact getBytes_append b.contents x
        refine ⟨{ Block.init with
                  buffer := 0
                  bufferSize := ADDRESS_SPACE_GRAPHICS_BLOCK_SIZE
                  subAlloc := some sa
                  offsetIntoPhys := b.offsetIntoPhys
                  isEmpty := false
                  contents := b.contents }, ?_, ?_, ?_⟩
        · have eHM0 : ∀ x, getBe64 (putBe64 0 ++ x) = .ok (0, x) := fun x =>
            getBe64_putBe64_of_lt (by norm_num) x
          simp [saveBlockLocked, loadBlockLocked, fillBlockLocked, Block.init,
            hE, hdnone, hsac, hx, husesv, hhm0, e1, e0, eBS, eOFF, eHM, eHM0,
            eSA, eCT]
        · exact hE.symm
        · exact fun _ => ⟨rfl, rfl, hdnone.symm, hhm0.symm⟩

theorem loadBlockList_saveBlockList (resources : LoadResources) :
    ∀ (bs : List Block) (r : List Nat), bs.all Block.wfb = true →
      (∀ b ∈ bs, blockResourcesOk resources b) →
      ∃ bs', loadBlockList resources bs.length (saveBlockList bs ++ r) =
          .ok (bs', r) ∧ List.Forall₂ blockRoundTrip bs bs' := by
  intro bs
  induction bs with
  | nil =>
    intro r _ _
    exact ⟨[], rfl, List.Forall₂.nil⟩
  | cons b bs ih =>
    intro r hwf hres
    simp only [List.all_cons, Bool.and_eq_true] at hwf
    obtain ⟨hwb, hwbs⟩ := hwf
    obtain ⟨b', hload, hrt⟩ := loadBlockLocked_saveBlockLocked resources b
      (saveBlockList bs ++ r) hwb (hres b (List.mem_cons_self b bs))
    obtain ⟨bs', hloads, hrts⟩ :=
      ih r hwbs (fun x hx => hres x (List.mem_cons_of_mem b hx))
    refine ⟨b' :: bs', ?_, List.Forall₂.cons hrt hrts⟩
    simp only [List.length_cons, saveBlockList, loadBlockList,
      List.append_assoc]
    rw [hload]
    simp only []
    rw [hloads]

theorem globalsLoad_globalsSave (g : Globals) (resources : LoadResources)
    (hwf : g.wfb = true) (hres : globalsResourcesOk g resources) :
    ∃ g', globalsLoad (Globals.clear g) resources (globalsSave g) =
        .ok (g', []) ∧
      List.Forall₂ blockRoundTrip g.ringBlocks g'.ringBlocks ∧
      List.Forall₂ blockRoundTrip g.bufferBlocks g'.bufferBlocks ∧
      List.Forall₂ blockRoundTrip g.combinedBlocks g'.combinedBlocks ∧
      g'.perContextBufferSize = g.perContextBufferSize := by
  simp only [Globals.wfb, Bool.and_eq_true, decide_eq_true_eq] at hwf
  obtain ⟨⟨⟨⟨⟨hlr, hlb⟩, hlc⟩, har⟩, hab⟩, hac⟩ := hwf
  obtain ⟨hresr, hresb, hresc⟩ := hres
  obtain ⟨rs', hloadr, hrtr⟩ := loadBlockList_saveBlockList resources
    g.ringBlocks (saveBlockList g.bufferBlocks ++
      saveBlockList g.combinedBlocks) har hresr
  obtain ⟨bs', hloadb, hrtb⟩ := loadBlockList_saveBlockList resources
    g.bufferBlocks (saveBlockList g.combinedBlocks) hab hresb
  obtain ⟨cs', hloadc, hrtc⟩ := loadBlockList_saveBlockList resources
    g.combinedBlocks [] hac hresc
  refine ⟨{ (Globals.clear g) with
              ringBlocks := rs'
              bufferBlocks := bs'
              combinedBlocks := cs' }, ?_, hrtr, hrtb, hrtc, rfl⟩
  simp only [globalsSave, globalsLoad, List.append_assoc]
  rw [getBe64_putBe64_of_lt hlr]
  simp only []
  rw [getBe64_putBe64_of_lt hlb]
  simp only []
  rw [getBe64_putBe64_of_lt hlc]
  simp only []
  rw [hloadr]
  simp only []
  rw [hloadb]
  simp only []
  rw [show saveBlockList g.combinedBlocks =
    saveBlockList g.combinedBlocks ++ [] by simp]
  rw [hloadc]
  simp [Globals.clear]

theorem ctxLoad_ctxSave (g2 : Globals) (c : Ctx) (csave : Nat → List Nat)
    (cload : List Nat → Option (Nat × List Nat)) (r : List Nat)
    (hwf : c.wfb = true)
    (hcol : ∀ k x, cload (csave k ++ x) = some (k, x)) :
    ∃ c', ctxLoad g2 cload (ctxSave csave c ++ r) = .ok (c', r) ∧
      c'.version = c.version ∧ c'.exiting = c.exiting ∧
      c'.savedConfig = c.savedConfig := by
  simp only [Ctx.wfb, Bool.and_eq_true, decide_eq_true_eq] at hwf
  obtain ⟨⟨⟨⟨⟨⟨⟨hver, hex⟩, hcnt⟩, ha1⟩, ha2⟩, ha3⟩, hcfg⟩, hvio⟩ := hwf
  have e1 : ∀ x, getBe32 (putBe32 1 ++ x) = .ok (1, x) := fun x =>
    getBe32_putBe32_of_lt (by norm_num) x
  have e0 : ∀ x, getBe32 (putBe32 0 ++ x) = .ok (0, x) := fun x =>
    getBe32_putBe32_of_lt (by norm_num) x
  have eVer : ∀ x, getBe32 (putBe32 c.version ++ x) = .ok (c.version, x) :=
    fun x => getBe32_putBe32_of_lt hver x
  have eEx : ∀ x, getBe32 (putBe32 c.exiting ++ x) = .ok (c.exiting, x) :=
    fun x => getBe32_putBe32_of_lt hex x
  have eCnt : ∀ x, getBe32 (putBe32 c.unavailableReadCount ++ x) =
      .ok (c.unavailableReadCount, x) := fun x => getBe32_putBe32_of_lt hcnt x
  have eA1 : ∀ x, loadAllocation Alloc.init
      (saveAllocation c.ringAllocation ++ x) =
      .ok ({ Alloc.init with blockIndex := c.ringAllocation.blockIndex
                             offsetIntoPhys := c.ringAllocation.offsetIntoPhys
                             size := c.ringAllocation.size
                             isView := c.ringAllocation.isView }, x) :=
    fun x => loadAllocation_saveAllocation c.ringAllocation ha1 x
  have eA2 : ∀ x, loadAllocation Alloc.init
      (saveAllocation c.bufferAllocation ++ x) =
      .ok ({ Alloc.init with blockIndex := c.bufferAllocation.blockIndex
                             offsetIntoPhys := c.bufferAllocation.offsetIntoPhys
                             size := c.bufferAllocation.size
                             isView := c.bufferAllocation.isView }, x) :=
    fun x => loadAllocation_saveAllocation c.bufferAllocation ha2 x
  have eA3 : ∀ x, loadAllocation Alloc.init
      (saveAllocation c.combinedAllocation ++ x) =
      .ok ({ Alloc.init with
               blockIndex := c.combinedAllocation.blockIndex
               offsetIntoPhys := c.combinedAllocation.offsetIntoPhys
               size := c.combinedAllocation.size
               isView := c.combinedAllocation.isView }, x) :=
    fun x => loadAllocation_saveAllocation c.combinedAllocation ha3 x
  have eCfg : ∀ x, loadRingConfig (saveRingConfig c.savedConfig ++ x) =
      .ok (c.savedConfig, x) := fun x =>
    loadRingConfig_saveRingConfig c.savedConfig hcfg x
  simp only [Alloc.init] at eA1 eA2 eA3
  cases hvc : c.virtioGpuInfo with
  | none =>
    cases hcon : c.consumer with
    | none =>
      refine ⟨{ virtioGpuInfo := none
                ringAllocation := fillAllocFromLoad g2 AllocType.AllocTypeRing
                  { buffer := none
                    blockIndex := c.ringAllocation.blockIndex
                    offsetIntoPhys := c.ringAllocation.offsetIntoPhys
                    size := c.ringAllocation.size
                    isView := c.ringAllocation.isView
                    dedicatedContextHandle := none
                    hostmemId := 0 }
                bufferAllocation := fillAllocFromLoad g2 AllocType.AllocTypeBuffer
                  { buffer := none
                    blockIndex := c.bufferAllocation.blockIndex
                    offsetIntoPhys := c.bufferAllocation.offsetIntoPhys
                    size := c.bufferAllocation.size
                    isView := c.bufferAllocation.isView
                    dedicatedContextHandle := none
                    hostmemId := 0 }
                combinedAllocation :=
                  { buffer := none
                    blockIndex := c.combinedAllocation.blockIndex
                    offsetIntoPhys := c.combinedAllocation.offsetIntoPhys
                    size := c.combinedAllocation.size
                    isView := c.combinedAllocation.isView
                    dedicatedContextHandle := none
                    hostmemId := 0 }
                version := c.version
                exiting := c.exiting
                unavailableReadCount := c.unavailableReadCount
                ringConfig :=
                  { buffer_size := g2.perContextBufferSize
                    flush_interval := g2.writeStepSize
                    host_consumed_pos := 0
                    guest_write_pos := 0
                    transfer_mode := 0
                    transfer_size := 0
                    in_error := 0 }
                hostState := HostState.CanConsume
                savedConfig := c.savedConfig
                consumer := none
                consumersCreated := 0 }, ?_, rfl, rfl, rfl⟩
      simp [ctxSave, ctxLoad, Alloc.init, hvc, hcon, List.append_assoc, e1, e0, eVer,
        eEx, eCnt, eA1, eA2, eA3, eCfg, hcol]
    | some k =>
      refine ⟨{ virtioGpuInfo := none
                ringAllocation := fillAllocFromLoad g2 AllocType.AllocTypeRing
                  { buffer := none
                    blockIndex := c.ringAllocation.blockIndex
                    offsetIntoPhys := c.ringAllocation.offsetIntoPhys
                    size := c.ringAllocation.size
                    isView := c.ringAllocation.isView
                    dedicatedContextHandle := none
                    hostmemId := 0 }
                bufferAllocation := fillAllocFromLoad g2 AllocType.AllocTypeBuffer
                  { buffer := none
                    blockIndex := c.bufferAllocation.blockIndex
                    offsetIntoPhys := c.bufferAllocation.offsetIntoPhys
                    size := c.bufferAllocation.size
                    isView := c.bufferAllocation.isView
                    dedicatedContextHandle := none
                    hostmemId := 0 }
                combinedAllocation :=
                  { buffer := none
                    blockIndex := c.combinedAllocation.blockIndex
                    offsetIntoPhys := c.combinedAllocation.offsetIntoPhys
                    size := c.combinedAllocation.size
                    isView := c.combinedAllocation.isView
                    dedicatedContextHandle := none
                    hostmemId := 0 }
                version := c.version
                exiting := c.exiting
                unavailableReadCount := c.unavailableReadCount
                ringConfig :=
                  { buffer_size := g2.perContextBufferSize
                    flush_interval := g2.writeStepSize
                    host_consumed_pos := 0
                    guest_write_pos := 0
                    transfer_mode := 0
                    transfer_size := 0
                    in_error := 0 }
                hostState := HostState.CanConsume
                savedConfig := c.savedConfig
                consumer := some k
                consumersCreated := 1 }, ?_, rfl, rfl, rfl⟩
      simp [ctxSave, ctxLoad, Alloc.init, hvc, hcon, List.append_assoc, e1, e0, eVer,
        eEx, eCnt, eA1, eA2, eA3, eCfg, hcol]
  | some info =>
    rw [hvc] at hvio
    simp only [Bool.and_eq_true, decide_eq_true_eq] at hvio
    obtain ⟨⟨hcid, hcap⟩, hnm⟩ := hvio
    have eCid : ∀ x, getBe32 (putBe32 info.contextId ++ x) =
        .ok (info.contextId, x) := fun x => getBe32_putBe32_of_lt hcid x
    have eCap : ∀ x, getBe32 (putBe32 info.capsetId ++ x) =
        .ok (info.capsetId, x) := fun x => getBe32_putBe32_of_lt hcap x
    cases hnv : info.name with
    | none =>
      cases hcon : c.consumer with
      | none =>
        refine ⟨{ virtioGpuInfo := some { contextId := info.contextId
                                          capsetId := info.capsetId
                                          name := none }
                  ringAllocation := allocRingViewIntoCombined
                    (fillAllocFromLoad g2 AllocType.AllocTypeCombined
                      { buffer := none
                        blockIndex := c.combinedAllocation.blockIndex
                        offsetIntoPhys := c.combinedAllocation.offsetIntoPhys
                        size := c.combinedAllocation.size
                        isView := c.combinedAllocation.isView
                        dedicatedContextHandle := none
                        hostmemId := 0 })
                  bufferAllocation := allocBufferViewIntoCombined
                    g2.perContextBufferSize
                    (fillAllocFromLoad g2 AllocType.AllocTypeCombined
                      { buffer := none
                        blockIndex := c.combinedAllocation.blockIndex
                        offsetIntoPhys := c.combinedAllocation.offsetIntoPhys
                        size := c.combinedAllocation.size
                        isView := c.combinedAllocation.isView
                        dedicatedContextHandle := none
                        hostmemId := 0 })
                  combinedAllocation :=
                    fillAllocFromLoad g2 AllocType.AllocTypeCombined
                      { buffer := none
                        blockIndex := c.combinedAllocation.blockIndex
                        offsetIntoPhys := c.combinedAllocation.offsetIntoPhys
                        size := c.combinedAllocation.size
                        isView := c.combinedAllocation.isView
                        dedicatedContextHandle := none
                        hostmemId := 0 }
                  version := c.version
                  exiting := c.exiting
                  unavailableReadCount := c.unavailableReadCount
                  ringConfig :=
                    { buffer_size := g2.perContextBufferSize
                      flush_interval := g2.writeStepSize
                      host_consumed_pos := 0
                      guest_write_pos := 0
                      transfer_mode := 0
                      transfer_size := 0
                      in_error := 0 }
                  hostState := HostState.CanConsume
                  savedConfig := c.savedConfig
                  consumer := none
                  consumersCreated := 0 }, ?_, rfl, rfl, rfl⟩
        simp [ctxSave, ctxLoad, Alloc.init, hvc, hnv, hcon, List.append_assoc, e1,
          e0, eVer, eEx, eCnt, eA1, eA2, eA3, eCfg, eCid, eCap, hcol]
      | some k =>
        refine ⟨{ virtioGpuInfo := some { contextId := info.contextId
                                          capsetId := info.capsetId
                                          name := none }
                  ringAllocation := allocRingViewIntoCombined
                    (fillAllocFromLoad g2 AllocType.AllocTypeCombined
                      { buffer := none
                        blockIndex := c.combinedAllocation.blockIndex
                        offsetIntoPhys := c.combinedAllocation.offsetIntoPhys
                        size := c.combinedAllocation.size
                        isView := c.combinedAllocation.isView
                        dedicatedContextHandle := none
                        hostmemId := 0 })
                  bufferAllocation := allocBufferViewIntoCombined
                    g2.perContextBufferSize
                    (fillAllocFromLoad g2 AllocType.AllocTypeCombined
                      { buffer := none
                        blockIndex := c.combinedAllocation.blockIndex
                        offsetIntoPhys := c.combinedAllocation.offsetIntoPhys
                        size := c.combinedAllocation.size
                        isView := c.combinedAllocation.isView
                        dedicatedContextHandle := none
                        hostmemId := 0 })
                  combinedAllocation :=
                    fillAllocFromLoad g2 AllocType.AllocTypeCombined
                      { buffer := none
                        blockIndex := c.combinedAllocation.blockIndex
                        offsetIntoPhys := c.combinedAllocation.offsetIntoPhys
                        size := c.combinedAllocation.size
                        isView := c.combinedAllocation.isView
                        dedicatedContextHandle := none
                        hostmemId := 0 }
                  version := c.version
                  exiting := c.exiting
                  unavailableReadCount := c.unavailableReadCount
                  ringConfig :=
                    { buffer_size := g2.perContextBufferSize
                      flush_interval := g2.writeStepSize
                      host_consumed_pos := 0
                      guest_write_pos := 0
                      transfer_mode := 0
                      transfer_size := 0
                      in_error := 0 }
                  hostState := HostState.CanConsume
                  savedConfig := c.savedConfig
                  consumer := some k
                  consumersCreated := 1 }, ?_, rfl, rfl, rfl⟩
        simp [ctxSave, ctxLoad, Alloc.init, hvc, hnv, hcon, List.append_assoc, e1,
          e0, eVer, eEx, eCnt, eA1, eA2, eA3, eCfg, eCid, eCap, hcol]
    | some nm =>
      rw [hnv] at hnm
      have eNm : ∀ x, getString (putString nm ++ x) = .ok (nm, x) := fun x =>
        getString_putString (by simpa using hnm) x
      cases hcon : c.consumer with
      | none =>
        refine ⟨{ virtioGpuInfo := some { contextId := info.contextId
                                          capsetId := info.capsetId
                                          name := some nm }
                  ringAllocation := allocRingViewIntoCombined
                    (fillAllocFromLoad g2 AllocType.AllocTypeCombined
                      { buffer := none
                        blockIndex := c.combinedAllocation.blockIndex
                        offsetIntoPhys := c.combinedAllocation.offsetIntoPhys
                        size := c.combinedAllocation.size
                        isView := c.combinedAllocation.isView
                        dedicatedContextHandle := none
                        hostmemId := 0 })
                  bufferAllocation := allocBufferViewIntoCombined
                    g2.perContextBufferSize
                    (fillAllocFromLoad g2 AllocType.AllocTypeCombined
                      { buffer := none
                        blockIndex := c.combinedAllocation.blockIndex
                        offsetIntoPhys := c.combinedAllocation.offsetIntoPhys
                        size := c.combinedAllocation.size
                        isView := c.combinedAllocation.isView
                        dedicatedContextHandle := none
                        hostmemId := 0 })
                  combinedAllocation :=
                    fillAllocFromLoad g2 AllocType.AllocTypeCombined
                      { buffer := none
                        blockIndex := c.combinedAllocation.blockIndex
                        offsetIntoPhys := c.combinedAllocation.offsetIntoPhys
                        size := c.combinedAllocation.size
                        isView := c.combinedAllocation.isView
                        dedicatedContextHandle := none
                        hostmemId := 0 }
                  version := c.version
                  exiting := c.exiting
                  unavailableReadCount := c.unavailableReadCount
                  ringConfig :=
                    { buffer_size := g2.perContextBufferSize
                      flush_interval := g2.writeStepSize
                      host_consumed_pos := 0
                      guest_write_pos := 0
                      transfer_mode := 0
                      transfer_size := 0
                      in_error := 0 }
                  hostState := HostState.CanConsume
                  savedConfig := c.savedConfig
                  consumer := none
                  consumersCreated := 0 }, ?_, rfl, rfl, rfl⟩
        simp [ctxSave, ctxLoad, Alloc.init, hvc, hnv, hcon, List.append_assoc, e1,
          e0, eVer, eEx, eCnt, eA1, eA2, eA3, eCfg, eCid, eCap, eNm,
          hcol]
      | some k =>
        refine ⟨{ virtioGpuInfo := some { contextId := info.contextId
                                          capsetId := info.capsetId
                                          name := some nm }
                  ringAllocation := allocRingViewIntoCombined
                    (fillAllocFromLoad g2 AllocType.AllocTypeCombined
                      { buffer := none
                        blockIndex := c.combinedAllocation.blockIndex
                        offsetIntoPhys := c.combinedAllocation.offsetIntoPhys
                        size := c.combinedAllocation.size
                        isView := c.combinedAllocation.isView
                        dedicatedContextHandle := none
                        hostmemId := 0 })
                  bufferAllocation := allocBufferViewIntoCombined
                    g2.perContextBufferSize
                    (fillAllocFromLoad g2 AllocType.AllocTypeCombined
                      { buffer := none
                        blockIndex := c.combinedAllocation.blockIndex
                        offsetIntoPhys := c.combinedAllocation.offsetIntoPhys
                        size := c.combinedAllocation.size
                        isView := c.combinedAllocation.isView
                        dedicatedContextHandle := none
                        hostmemId := 0 })
                  combinedAllocation :=
                    fillAllocFromLoad g2 AllocType.AllocTypeCombined
                      { buffer := none
                        blockIndex := c.combinedAllocation.blockIndex
                        offsetIntoPhys := c.combinedAllocation.offsetIntoPhys
                        size := c.combinedAllocation.size
                        isView := c.combinedAllocation.isView
                        dedicatedContextHandle := none
                        hostmemId := 0 }
                  version := c.version
                  exiting := c.exiting
                  unavailableReadCount := c.unavailableReadCount
                  ringConfig :=
                    { buffer_size := g2.perContextBufferSize
                      flush_interval := g2.writeStepSize
                      host_consumed_pos := 0
                      guest_write_pos := 0
                      transfer_mode := 0
                      transfer_size := 0
                      in_error := 0 }
                  hostState := HostState.CanConsume
                  savedConfig := c.savedConfig
                  consumer := some k
                  consumersCreated := 1 }, ?_, rfl, rfl, rfl⟩
        simp [ctxSave, ctxLoad, Alloc.init, hvc, hnv, hcon, List.append_assoc, e1,
          e0, eVer, eEx, eCnt, eA1, eA2, eA3, eCfg, eCid, eCap, eNm,
          hcol]

/-- C1: snapshot round trip.  Globals save, then clear, then load (with
the same external-memory resources supplied for dedicated virtio blocks)
succeeds, consumes exactly the saved bytes, and reproduces, for every
non-empty Block of each of the three pools, identical buffer contents,
physical offset, dedicated-context-handle and hostmem id (blockRoundTrip
pointwise over each pool); and context save followed by load reproduces
the negotiated version, the exiting flag and the saved ring-header
configuration, for any reloaded pool state and any collaborator that
reads back its own consumer serialization. -/
theorem claim_c1 (g : Globals) (resources : LoadResources) (c : Ctx)
    (csave : Nat → List Nat) (cload : List Nat → Option (Nat × List Nat))
    (hg : g.wfb = true) (hres : globalsResourcesOk g resources)
    (hc : c.wfb = true)
    (hcol : ∀ k x, cload (csave k ++ x) = some (k, x)) :
    (∃ g', globalsLoad (Globals.clear g) resources (globalsSave g) =
        .ok (g', []) ∧
      List.Forall₂ blockRoundTrip g.ringBlocks g'.ringBlocks ∧
      List.Forall₂ blockRoundTrip g.bufferBlocks g'.bufferBlocks ∧
      List.Forall₂ blockRoundTrip g.combinedBlocks g'.combinedBlocks) ∧
    (∀ (g2 : Globals) (r : List Nat), ∃ c',
      ctxLoad g2 cload (ctxSave csave c ++ r) = .ok (c', r) ∧
      c'.version = c.version ∧ c'.exiting = c.exiting ∧
      c'.savedConfig = c.savedConfig) := by
  constructor
  · obtain ⟨g', h1, h2, h3, h4, -⟩ :=
      globalsLoad_globalsSave g resources hg hres
    exact ⟨g', h1, h2, h3, h4⟩
  · intro g2 r
    exact ctxLoad_ctxSave g2 c csave cload r hc hcol

theorem claim_c1_witness :
    (∃ g', globalsLoad
        (Globals.clear
          { perContextBufferSize := 4096
            writeStepSize := 16
            ringBlocks := []
            bufferBlocks := []
            combinedBlocks :=
              [{ buffer := 1000
                 bufferSize := 3
                 subAlloc := some { pageSize := 1
                                    totalSize := 3
                                    allocs := [(0, 1)] }
                 offsetIntoPhys := 0
                 isEmpty := false
                 dedicatedContextHandle := some 7
                 usesVirtioGpuHostmem := true
                 hostmemId := 42
                 external := true
                 contents := [1, 2, 3] }]
            nextPhys := 0 })
        (some (fun h => if h = 7 then
            some { address := 1000, contents := [1, 2, 3] } else none))
        (globalsSave
          { perContextBufferSize := 4096
            writeStepSize := 16
            ringBlocks := []
            bufferBlocks := []
            combinedBlocks :=
              [{ buffer := 1000
                 bufferSize := 3
                 subAlloc := some { pageSize := 1
                                    totalSize := 3
                                    allocs := [(0, 1)] }
                 offsetIntoPhys := 0
                 isEmpty := false
                 dedicatedContextHandle := some 7
                 usesVirtioGpuHostmem := true
                 hostmemId := 42
                 external := true
                 contents := [1, 2, 3] }]
            nextPhys := 0 }) = .ok (g', []) ∧
      List.Forall₂ blockRoundTrip
        [{ buffer := 1000
           bufferSize := 3
           subAlloc := some { pageSize := 1
                              totalSize := 3
                              allocs := [(0, 1)] }
           offsetIntoPhys := 0
           isEmpty := false
           dedicatedContextHandle := some 7
           usesVirtioGpuHostmem := true
           hostmemId := 42
           external := true
           contents := [1, 2, 3] }]
        g'.combinedBlocks) ∧
    (∃ c', ctxLoad ({} : Globals)
        (fun l => match l with
          | x :: rest => some (x, rest)
          | [] => none)
        (ctxSave (fun k => [k]) ({} : Ctx) ++ []) = .ok (c', []) ∧
      c'.version = ({} : Ctx).version ∧
      c'.savedConfig = ({} : Ctx).savedConfig) := by
  obtain ⟨⟨g', h1, h2, h3, h4⟩, H2⟩ := claim_c1
    { perContextBufferSize := 4096
      writeStepSize := 16
      ringBlocks := []
      bufferBlocks := []
      combinedBlocks :=
        [{ buffer := 1000
           bufferSize := 3
           subAlloc := some { pageSize := 1
                              totalSize := 3
                              allocs := [(0, 1)] }
           offsetIntoPhys := 0
           isEmpty := false
           dedicatedContextHandle := some 7
           usesVirtioGpuHostmem := true
           hostmemId := 42
           external := true
           contents := [1, 2, 3] }]
      nextPhys := 0 }
    (some (fun h => if h = 7 then
        some { address := 1000, contents := [1, 2, 3] } else none))
    ({} : Ctx) (fun k => [k])
    (fun l => match l with
      | x :: rest => some (x, rest)
      | [] => none)
    (by decide)
    (by
      refine ⟨?_, ?_, ?_⟩
      · intro b hb
        simp at hb
      · intro b hb
        simp at hb
      · intro b hb
        simp only [List.mem_singleton] at hb
        subst hb
        intro hie hxe h hdh
        simp only [] at hdh
        have h7 : h = 7 := by
          injection hdh with hv
          exact hv.symm
        subst h7
        exact ⟨_, rfl, { address := 1000, contents := [1, 2, 3] }, rfl,
          rfl, rfl⟩)
    (by decide)
    (fun k x => rfl)
  obtain ⟨c', hc1, hc2, -, hc4⟩ := H2 ({} : Globals) []
  exact ⟨⟨g', h1, h4⟩, ⟨c', hc1, hc2, hc4⟩⟩

end Asg
